import Mathlib

/-!
Verification development for the phytoDB water-quality pipeline
(`src/sig.py`, `src/sig_views.py`, `src/thresholds.py`, `src/ppp_dict.py`).

The Python code is shallowly embedded: Python scalar values become `PyVal`
(with numbers modelled as exact rationals `ℚ`, so float arithmetic is given
exact real-number semantics), Python dicts used as attribute tables become
ordered association lists, the process-wide reference tables loaded from CSV
files become an explicit `Env` record, and file-system side effects are
dropped (every `export_*` function is modelled by the pure transformation it
applies between reading its input features and serialising its output).
-/

namespace PhytoDB

/-- A Python scalar value as it appears in record fields and attribute
tables: `None`, a string, a number (int and float collapsed into an exact
rational), or a boolean. -/
inductive PyVal where
  | vnone : PyVal
  | vs : String → PyVal
  | vn : ℚ → PyVal
  | vb : Bool → PyVal
deriving DecidableEq, Repr

/-- Python truthiness (`bool(x)`) for the values we model: `None`, `""`,
`0` and `False` are falsy. -/
def pyTruthy : PyVal → Bool
  | .vnone => false
  | .vs v => v != ""
  | .vn v => v != 0
  | .vb v => v

/-- Python `==` on scalar values: cross-type comparisons are `False`,
except that booleans compare numerically with numbers (`True == 1`). -/
def pyEq : PyVal → PyVal → Bool
  | .vnone, .vnone => true
  | .vs a, .vs b => a == b
  | .vn a, .vn b => a == b
  | .vb a, .vb b => a == b
  | .vb a, .vn b => (if a then (1 : ℚ) else 0) == b
  | .vn a, .vb b => a == (if b then (1 : ℚ) else 0)
  | _, _ => false

/-- Python `a or b` (returns `a` when truthy, else `b`). -/
def pyOr (a b : PyVal) : PyVal := if pyTruthy a then a else b

/-- Decimal digit character. -/
def digitChar (n : ℕ) : Char := Char.ofNat (48 + n)

/-- Digits of a natural number, most significant first (fuel-driven). -/
def natStrAux : ℕ → ℕ → List Char
  | 0, _ => []
  | fuel + 1, n => if n < 10 then [digitChar n] else natStrAux fuel (n / 10) ++ [digitChar (n % 10)]

/-- Decimal rendering of a natural number. -/
def natStr (n : ℕ) : String := String.mk (natStrAux (n + 1) n)

/-- Decimal rendering of an integer. -/
def intStr (i : ℤ) : String := if i < 0 then "-" ++ natStr i.natAbs else natStr i.natAbs

/-- Rendering of a rational. Integral values render like Python ints;
for non-integral values Python's float formatting is abstracted by an exact
fraction rendering (no claim depends on the text of a non-integral number). -/
def qStr (q : ℚ) : String :=
  if q.den = 1 then intStr q.num else intStr q.num ++ "/" ++ natStr q.den

/-- Python `str(x)` for the values we model. -/
def pyStr : PyVal → String
  | .vnone => "None"
  | .vs v => v
  | .vn v => qStr v
  | .vb v => if v then "True" else "False"

/-- Python whitespace for `str.strip()` (the characters relevant here). -/
def isPySpace (c : Char) : Bool := c = ' ' || c = '\t' || c = '\n' || c = '\r'

/-- Python `str.strip()`. -/
def pyStrip (s : String) : String :=
  String.mk (((s.toList.dropWhile isPySpace).reverse.dropWhile isPySpace).reverse)

/-- List-level prefix test (first argument is the candidate prefix). -/
def isPrefixL : List Char → List Char → Bool
  | [], _ => true
  | _ :: _, [] => false
  | a :: as, b :: bs => a = b && isPrefixL as bs

/-- Python `s.startswith(p)`. -/
def pyStartsWith (s p : String) : Bool := isPrefixL p.toList s.toList

/-- Substring occurrence in a character list. -/
def subList (needle : List Char) : List Char → Bool
  | [] => needle.isEmpty
  | c :: rest => isPrefixL needle (c :: rest) || subList needle rest

/-- Python `sub in s`. -/
def strContains (s sub : String) : Bool := subList sub.toList s.toList

/-- Python `s.lower()` (ASCII case folding; the keyword detection below only
ever matches all-lowercase keywords). -/
def pyLower (s : String) : String := String.mk (s.toList.map Char.toLower)

/-- Python `" ".join(parts)`. -/
def joinSp : List String → String
  | [] => ""
  | [x] => x
  | x :: xs => x ++ " " ++ joinSp xs

/-- Python `s[:n]`. -/
def pyTake (s : String) (n : ℕ) : String := String.mk (s.toList.take n)

/-- Leading run of decimal digits of a character list, and the rest. -/
def takeDigits : List Char → List Char × List Char
  | [] => ([], [])
  | c :: cs =>
    if c.isDigit then
      let p := takeDigits cs
      (c :: p.1, p.2)
    else ([], c :: cs)

/-- Value of a digit list (most significant first). -/
def digitsVal : List Char → ℕ → ℕ
  | [], acc => acc
  | c :: cs, acc => digitsVal cs (acc * 10 + (c.toNat - 48))

/-- Unsigned decimal mantissa `digits[.digits]`; returns its value and the
unconsumed rest, or `none` when no digit is present. -/
def parseMantissa (cs : List Char) : Option (ℚ × List Char) :=
  let ip := takeDigits cs
  match ip.2 with
  | '.' :: r2 =>
    let fp := takeDigits r2
    if ip.1.isEmpty && fp.1.isEmpty then none
    else some (((digitsVal ip.1 0 : ℚ) + (digitsVal fp.1 0 : ℚ) / (10 ^ fp.1.length)), fp.2)
  | r1 => if ip.1.isEmpty then none else some ((digitsVal ip.1 0 : ℚ), r1)

/-- Optional exponent part `[(e|E)[±]digits]`; `none` means a malformed
exponent, `some (q, rest)` the scaled mantissa and the rest. -/
def applyExponent (m : ℚ) : List Char → Option (ℚ × List Char)
  | 'e' :: r | 'E' :: r =>
    match r with
    | '+' :: r2 =>
      let d := takeDigits r2
      if d.1.isEmpty then none else some (m * 10 ^ (digitsVal d.1 0), d.2)
    | '-' :: r2 =>
      let d := takeDigits r2
      if d.1.isEmpty then none else some (m / 10 ^ (digitsVal d.1 0), d.2)
    | _ =>
      let d := takeDigits r
      if d.1.isEmpty then none else some (m * 10 ^ (digitsVal d.1 0), d.2)
  | rest => some (m, rest)

/-- Python `float(s)` on a string, restricted to finite decimal literals
(`inf`/`nan` literals are outside the data this pipeline feeds it). -/
def parsePyFloat (s : String) : Option ℚ :=
  let cs := (pyStrip s).toList
  let signed : Bool × List Char :=
    match cs with
    | '+' :: r => (false, r)
    | '-' :: r => (true, r)
    | r => (false, r)
  match parseMantissa signed.2 with
  | none => none
  | some (m, rest) =>
    match applyExponent m rest with
    | none => none
    | some (q, rest2) =>
      if rest2.isEmpty then some (if signed.1 then -q else q) else none

/-- Python `float(x)` wrapped in the `try/except` the sources use: any
failure (including `float(None)`) yields `none`. -/
def pyFloat : PyVal → Option ℚ
  | .vnone => none
  | .vs v => parsePyFloat v
  | .vn v => some v
  | .vb v => some (if v then 1 else 0)

/-- A GeoJSON geometry dict as the sources use it: a `type` tag and a
coordinate list. `Option Geom` models an absent/`None` geometry. -/
structure Geom where
  gtype : String
  coords : List ℚ
deriving DecidableEq, Repr

/-- `sig._geom_to_wkt`: GeoJSON Point → WKT text, else `None`. -/
def geomToWkt : Option Geom → Option String
  | none => none
  | some g =>
    if g.gtype != "Point" then none
    else
      match g.coords with
      | c0 :: c1 :: _ => some ("Point (" ++ qStr c0 ++ " " ++ qStr c1 ++ ")")
      | _ => none

/-- A Python dict used as an attribute table: an association list in
insertion order (keys unique by construction of every operation used). -/
abbrev Props := List (String × PyVal)

/-- Python `d.get(k)`: `None` both for an absent key and a stored `None`. -/
def Props.get (p : Props) (k : String) : PyVal :=
  match p.lookup k with
  | some v => v
  | none => .vnone

/-- In-place update of an existing key (`d[k] = v` guarded by `k in d`):
a no-op when the key is absent, which is exactly how `_feature_normalized`
guards its `out[k] = v` writes. -/
def Props.set (p : Props) (k : String) (v : PyVal) : Props :=
  p.map (fun kv => bif kv.1 == k then (k, v) else kv)

/-- Python `d[k] = v` on a dict: overwrite in place, else append. -/
def Props.setOrAppend (p : Props) (k : String) (v : PyVal) : Props :=
  match p with
  | [] => [(k, v)]
  | kv :: rest => if kv.1 == k then (k, v) :: rest else kv :: Props.setOrAppend rest k v

/-- The property-reordering idiom of `sig_views`: keys of `order` first (when
present), then the remaining keys in their original order. -/
def reorderProps (p : Props) (order : List String) : Props :=
  (order.filterMap (fun k => (p.lookup k).map (fun v => (k, v))))
    ++ p.filter (fun kv => !(order.contains kv.1))

/-- A normalized GeoJSON feature: geometry plus attribute table. -/
structure Feature where
  geometry : Option Geom
  properties : Props
deriving DecidableEq, Repr

/-! ### Reference tables (`thresholds.py`, `ppp_dict.py`)

The CSV files are read once per process into dicts; we model the loaded
tables as association lists inside an explicit `Env`, and the loaders as
functions of the parse outcome (see `loadThresholds` / `loadPppUsages`). -/

/-- A `csv.DictReader` row: column name → cell text. -/
abbrev RowMap := List (String × String)

/-- Helper for `row.get(k) or row.get(k') or ""` chains: a cell counts only
when present and non-empty. -/
def rowGetTruthy (row : RowMap) (k : String) : Option String :=
  match row.lookup k with
  | some v => if v != "" then some v else none
  | none => none

/-- One entry of the manual PPP-usage dictionary: all retained columns of
its CSV row (`ppp_dict._load_ppp_usages` keeps every non-empty column). -/
abbrev UsageMeta := List (String × String)

/-- One record of the C3PO substance catalog (the fields
`sig._ppp_metadata_for_param` reads). -/
structure C3poRec where
  libelle_parametre_sandre : PyVal := .vnone
  libelle_ephy : PyVal := .vnone
  libelle_bnvd : PyVal := .vnone
  libelle_agritox : PyVal := .vnone
  cas_parametre_sandre : PyVal := .vnone
deriving DecidableEq, Repr

/-- The loaded reference tables the resolvers consult (C3PO catalog indexed
by Sandre code, manual usage overrides by code and by CAS, and the
per-parameter sanitary-threshold overrides in µg/L). -/
structure Env where
  c3po : List (String × C3poRec) := []
  usagesByCode : List (String × UsageMeta) := []
  usagesByCas : List (String × UsageMeta) := []
  thresholds : List (String × ℚ) := []

/-- The generic single-pesticide drinking-water limit
(`thresholds.DEFAULT_SANITAIRE_PPP_UGL`), 0.1 µg/L. -/
def DEFAULT_SANITAIRE_PPP_UGL : ℚ := 1 / 10

/-- Dict assignment `d[k] = v` for the threshold table: overwrite in place,
else append. -/
def upsertQ (l : List (String × ℚ)) (k : String) (v : ℚ) : List (String × ℚ) :=
  match l with
  | [] => [(k, v)]
  | kv :: rest => if kv.1 == k then (k, v) :: rest else kv :: upsertQ rest k v

/-- Row processing of `thresholds._load_thresholds`: keep rows with a
non-empty code and a parseable `seuil_ugl`, later rows overwriting earlier
ones (dict assignment). -/
def processThresholdRows (rows : List RowMap) : List (String × ℚ) :=
  rows.foldl
    (fun acc row =>
      let code := pyStrip ((row.lookup "code_parametre").getD "")
      let val := pyStrip ((row.lookup "seuil_ugl").getD "")
      if code == "" || val == "" then acc
      else
        match parsePyFloat val with
        | some q => upsertQ acc code q
        | none => acc)
    []

/-- `thresholds._load_thresholds`, as a function of the file's existence and
of the CSV parse outcome (`Except.error` models a raised parsing exception).
The whole read is wrapped in `except Exception: thresholds = {}`, so a parse
failure yields the empty table instead of propagating. -/
def loadThresholds (fileExists : Bool) (parse : Except String (List RowMap)) :
    List (String × ℚ) :=
  if fileExists then
    match parse with
    | .ok rows => processThresholdRows rows
    | .error _ => []
  else []

/-- `thresholds.seuil_sanitaire_ugL`: the per-parameter override when the
stripped code is in the table, else the 0.1 µg/L default. -/
def seuilSanitaireUgL (env : Env) (code_parametre : PyVal) : ℚ :=
  if code_parametre != PyVal.vnone then
    match env.thresholds.lookup (pyStrip (pyStr code_parametre)) with
    | some v => v
    | none => DEFAULT_SANITAIRE_PPP_UGL
  else DEFAULT_SANITAIRE_PPP_UGL

/-- Dict write used by the usage loader (`by_code[code] = meta`). -/
def upsertRow (l : List (String × UsageMeta)) (k : String) (m : UsageMeta) :
    List (String × UsageMeta) :=
  match l with
  | [] => [(k, m)]
  | kv :: rest => if kv.1 == k then (k, m) :: rest else kv :: upsertRow rest k m

/-- Row processing of `ppp_dict._load_ppp_usages` (lines 85–110): collect the
non-empty non-key columns, resolve `ppp_usage`/`ppp_usages_typiques`, skip
fully-empty rows, and index the row by stripped code and by stripped CAS. -/
def processUsageRows (rows : List RowMap) :
    List (String × UsageMeta) × List (String × UsageMeta) :=
  rows.foldl
    (fun acc row =>
      let code_raw := ((rowGetTruthy row "code_parametre").orElse
        (fun _ => rowGetTruthy row "Code_parametre")).getD ""
      let cas_raw := ((rowGetTruthy row "cas").orElse
        (fun _ => rowGetTruthy row "CAS")).getD ""
      let meta0 : UsageMeta := row.foldl
        (fun m kv =>
          if kv.1 != "" &&
              pyStrip kv.2 != "" &&
              !(["code_parametre", "Code_parametre", "cas", "CAS"].contains kv.1) then
            m ++ [(kv.1, pyStrip kv.2)]
          else m)
        []
      let usage : Option String :=
        match meta0.lookup "ppp_usage" with
        | some u => some u
        | none =>
          let r := pyStrip ((row.lookup "ppp_usage").getD "")
          if r != "" then some r else none
      let usages_typiques : Option String :=
        match meta0.lookup "ppp_usages_typiques" with
        | some u => some u
        | none =>
          let r := pyStrip ((row.lookup "ppp_usages_typiques").getD "")
          if r != "" then some r else none
      if usage.isNone && usages_typiques.isNone && meta0.isEmpty then acc
      else
        let meta1 := match usage with
          | some u => meta0 ++ (if (meta0.lookup "ppp_usage").isSome then [] else [("ppp_usage", u)])
          | none => meta0
        let meta := match usages_typiques with
          | some u => meta1 ++ (if (meta1.lookup "ppp_usages_typiques").isSome then []
              else [("ppp_usages_typiques", u)])
          | none => meta1
        let code := pyStrip code_raw
        let acc1 := if code != "" then (upsertRow acc.1 code meta, acc.2) else acc
        let cas := pyStrip cas_raw
        if cas != "" then (acc1.1, upsertRow acc1.2 cas meta) else acc1)
    ([], [])

/-- `ppp_dict._load_ppp_usages`, as a function of the file's existence and
CSV parse outcome. Unlike the threshold loader, the row loop is not wrapped
in a `try/except`, so a parsing exception propagates to the caller. -/
def loadPppUsages (fileExists : Bool) (parse : Except String (List RowMap)) :
    Except String (List (String × UsageMeta) × List (String × UsageMeta)) :=
  if fileExists then
    match parse with
    | .ok rows => .ok (processUsageRows rows)
    | .error e => .error e
  else .ok ([], [])

/-- `ppp_dict.lookup_ppp_usage`: first by stripped parameter code, then by
stripped CAS; `none` when neither matches. -/
def lookupPppUsage (env : Env) (code_parametre cas_parametre : PyVal) : Option UsageMeta :=
  let byCode : Option UsageMeta :=
    if code_parametre != PyVal.vnone then
      let c := pyStrip (pyStr code_parametre)
      if c != "" then env.usagesByCode.lookup c else none
    else none
  match byCode with
  | some m => some m
  | none =>
    if cas_parametre != PyVal.vnone then
      let c := pyStrip (pyStr cas_parametre)
      if c != "" then env.usagesByCas.lookup c else none
    else none

/-! ### The SIG layer (`sig.py`) -/

/-- `sig.CODE_DEPARTEMENT_COTE_DOR`. -/
def CODE_DEPARTEMENT_COTE_DOR : String := "21"

/-- `sig.COLONNES_PPP_SIMPLE`. -/
def COLONNES_PPP_SIMPLE : List String :=
  ["ppp_nom", "ppp_usage", "ppp_taux_ugl", "ppp_depassement", "ppp_seuil_sanitaire_ugl",
   "ppp_ratio_seuil", "ppp_usages_typiques"]

/-- `sig.COLONNES_BASE`. -/
def COLONNES_BASE : List String :=
  ["libelle_station", "libelle_commune", "nom_commune", "nom_cours_eau", "nom_masse_deau",
   "code_station", "code_commune", "code_departement", "bss_id", "code_bss",
   "num_departement", "source", "type_donnee", "wkt_geom"]

/-- `sig.COLONNES_PPP_IMPACT`. -/
def COLONNES_PPP_IMPACT : List String :=
  ["libelle_parametre", "code_parametre", "resultat", "symbole_unite", "date_prelevement",
   "annee", "ppp_description", "ppp_url_inrs", "ppp_url_ephy"]

/-- `sig.COLONNES_ATTR`: the fixed attribute schema of every feature. -/
def COLONNES_ATTR : List String := COLONNES_PPP_SIMPLE ++ COLONNES_BASE ++ COLONNES_PPP_IMPACT

/-- `sig._empty_attrs`: every column explicitly `None`. -/
def emptyAttrs : Props := COLONNES_ATTR.map (fun c => (c, PyVal.vnone))

/-- `x in ("21", 21)`. -/
def eq21 (v : PyVal) : Bool := pyEq v (.vs "21") || pyEq v (.vn 21)

/-- `sig._in_cote_dor`: the OR-of-three-signals department test. -/
def inCoteDor (code_dep num_dep code_insee : PyVal) : Bool :=
  if eq21 code_dep then true
  else if eq21 num_dep then true
  else if pyTruthy code_insee && pyStartsWith (pyStrip (pyStr code_insee)) "21" then true
  else false

/-- Micro-sign normalization `str(unite).replace("µ", "u")` (U+00B5 only). -/
def unitNorm (s : String) : String :=
  String.mk (s.toList.map (fun c => if c = 'µ' then 'u' else c))

/-- The inline (value, unit) → µg/L conversion duplicated in
`feature_naiades_analyse` (lines 304–314) and `feature_ades_analyse`
(lines 404–414): µg/L kept, mg/L × 1000, anything else `None`. -/
def normalizeConc (resultat symbole_unite : PyVal) : Option ℚ :=
  if resultat != PyVal.vnone && symbole_unite != PyVal.vnone then
    match pyFloat resultat with
    | some val =>
      let un := unitNorm (pyStr symbole_unite)
      if un == "µg/L" || un == "ug/L" then some val
      else if un == "mg/L" then some (val * 1000)
      else none
    | none => none
  else none

/-- The inline threshold/ratio/exceedance block duplicated in
`feature_naiades_analyse` (lines 316–320) and `feature_ades_analyse`
(lines 416–420): resolve the threshold only when a concentration exists,
and derive ratio and strict exceedance only when the threshold is truthy
and positive. Returns (seuil, ratio, depassement). -/
def computeImpact (env : Env) (code_parametre : PyVal) (conc : Option ℚ) :
    Option ℚ × Option ℚ × Option Bool :=
  match conc with
  | none => (none, none, none)
  | some c =>
    let s := seuilSanitaireUgL env code_parametre
    if s != 0 && decide (0 < s) then (some s, some (c / s), some (decide (1 < c / s)))
    else (some s, none, none)

/-- The ordered keyword heuristic of `sig._ppp_metadata_for_param`
(lines 150–164): first matching category wins. -/
def heuristicUsage (text : String) : Option String :=
  if strContains text "herbicide" then some "herbicide"
  else if strContains text "insecticide" then some "insecticide"
  else if strContains text "fongicide" || strContains text "fongicide" then some "fongicide"
  else if strContains text "acaricide" then some "acaricide"
  else if strContains text "rodenticide" then some "rodenticide"
  else if strContains text "nematicide" || strContains text "nématicide" then some "nématicide"
  else if strContains text "pheromone" || strContains text "phéromone" then
    some "phéromone de confusion sexuelle"
  else none

/-- `_C3PO_BY_PARAM.get(code) if code else None`. -/
def c3poLookup (env : Env) (codeS : String) : Option C3poRec :=
  if codeS != "" then env.c3po.lookup codeS else none

/-- `str(code_parametre) if code_parametre is not None else ""` (and the
analogous label string). -/
def asStr (v : PyVal) : String := if v != PyVal.vnone then pyStr v else ""

/-- The catalog entry consulted by `_ppp_metadata_for_param`. -/
def c3poOf (env : Env) (code_parametre : PyVal) : Option C3poRec :=
  c3poLookup env (asStr code_parametre)

/-- `(c3po or {}).get("cas_parametre_sandre") if c3po else None`. -/
def c3poCasOf (env : Env) (code_parametre : PyVal) : PyVal :=
  match c3poOf env code_parametre with
  | some e => e.cas_parametre_sandre
  | none => .vnone

/-- The `base_label` of `_ppp_metadata_for_param`: the Sandre label when
non-empty, else the first truthy C3PO label, else `""`. -/
def baseLabelOf (c3po : Option C3poRec) (libS : String) : PyVal :=
  if libS != "" then .vs libS
  else
    match c3po with
    | some e =>
      pyOr (pyOr (pyOr (pyOr e.libelle_parametre_sandre e.libelle_ephy) e.libelle_bnvd)
        e.libelle_agritox) (.vs "")
    | none => .vs libS

/-- The lowercased concatenation of labels scanned by the keyword
heuristic (`text_for_detection`). -/
def detectionText (c3po : Option C3poRec) (baseLabel : PyVal) : String :=
  let parts := [pyStr (pyOr baseLabel (.vs ""))] ++
    (match c3po with
     | some e => [pyStr (pyOr e.libelle_ephy (.vs "")), pyStr (pyOr e.libelle_bnvd (.vs "")),
         pyStr (pyOr e.libelle_agritox (.vs ""))]
     | none => [])
  pyLower (joinSp parts)

/-- The usage-category resolution pipeline of `_ppp_metadata_for_param`
(steps 1 and 2): the manual dictionary first (by code, then by CAS via the
catalog entry), else the ordered keyword heuristic. -/
def resolvedUsage (env : Env) (code_parametre libelle_parametre : PyVal) : Option String :=
  let c3po := c3poOf env code_parametre
  let dict_meta := lookupPppUsage env code_parametre (c3poCasOf env code_parametre)
  match dict_meta.bind (fun m => m.lookup "ppp_usage") with
  | some u => some u
  | none => heuristicUsage (detectionText c3po (baseLabelOf c3po (asStr libelle_parametre)))

/-- Per-category default typical-use text (`_ppp_metadata_for_param`
step 3, lines 167–181). -/
def defaultUsagesTypiques (usage : String) : Option String :=
  if usage == "herbicide" then some "Désherbage des cultures, bords de champs, talus ou voiries."
  else if usage == "insecticide" then
    some "Lutte contre les insectes ravageurs des cultures ou des stockages."
  else if usage == "fongicide" then
    some "Protection des cultures contre les maladies fongiques (mildiou, oïdium, etc.)."
  else if usage == "acaricide" then some "Lutte contre les acariens sur les cultures."
  else if usage == "rodenticide" then
    some "Lutte contre les rongeurs (bâtiments agricoles, stockages, etc.)."
  else if usage == "nématicide" || usage == "nematicide" then
    some "Lutte contre les nématodes des cultures."
  else if usage == "phéromone de confusion sexuelle" then
    some "Confusion sexuelle pour limiter les ravageurs, en viticulture ou arboriculture."
  else none

/-- The dict returned by `sig._ppp_metadata_for_param`. -/
structure PppMeta where
  ppp_nom : PyVal
  ppp_usage : PyVal
  ppp_usages_typiques : PyVal
  ppp_description : PyVal
  ppp_url_inrs : PyVal
  ppp_url_ephy : PyVal
deriving DecidableEq, Repr

/-- `sig._ppp_metadata_for_param`. -/
def pppMetadataForParam (env : Env) (code_parametre libelle_parametre : PyVal) : PppMeta :=
  let codeS := asStr code_parametre
  let libS := asStr libelle_parametre
  let c3po := c3poOf env code_parametre
  let baseLabel := baseLabelOf c3po libS
  let dict_meta := lookupPppUsage env code_parametre (c3poCasOf env code_parametre)
  let usages0 := dict_meta.bind (fun m => m.lookup "ppp_usages_typiques")
  let usage := resolvedUsage env code_parametre libelle_parametre
  let usages_typiques := match usages0 with
    | some u => some u
    | none =>
      match usage with
      | some u => defaultUsagesTypiques u
      | none => none
  let phrase := match usage with
    | some u =>
      "Produit phytopharmaceutique de type " ++ u ++
        ", utilisé principalement pour la protection des cultures."
    | none =>
      "Substance phytopharmaceutique suivie dans les eaux ; consulter INRS et e-phy pour les usages détaillés."
  let nomDesc : PyVal × String :=
    if pyTruthy baseLabel then
      (baseLabel, phrase ++ " (substance : " ++ pyStr baseLabel ++ ").")
    else if libS != "" then
      (.vs libS, phrase ++ " (paramètre : " ++ libS ++ ").")
    else if codeS != "" then
      (.vs ("Paramètre " ++ codeS), phrase ++ " (code paramètre Sandre " ++ codeS ++ ").")
    else (.vnone, phrase)
  { ppp_nom := nomDesc.1
    ppp_usage := match usage with
      | some u => .vs u
      | none => .vnone
    ppp_usages_typiques := match usages_typiques with
      | some u => .vs u
      | none => .vnone
    ppp_description := if nomDesc.2 != "" then .vs nomDesc.2 else .vnone
    ppp_url_inrs := .vs "https://www.inrs.fr/publications/bdd/fichetox.html"
    ppp_url_ephy := .vs "https://ephy.anses.fr/" }

/-- One guarded write of `_feature_normalized`'s copy loop: a source value
overwrites the schema default only when it is neither `None` nor the empty
string (and only for keys of the schema, which `Props.set` enforces). -/
def attrStep (o : Props) (kv : String × PyVal) : Props :=
  if kv.2 != PyVal.vnone && !(pyEq kv.2 (.vs "")) then o.set kv.1 kv.2 else o

/-- The Côte-d'Or test as `_feature_normalized` applies it to an attribute
table. -/
def inCoteDorProps (p : Props) : Bool :=
  inCoteDor (p.get "code_departement") (p.get "num_departement")
    (pyOr (p.get "code_commune") (p.get "code_insee"))

/-- `sig._feature_normalized`: require a geometry with a WKT rendering and
the Côte-d'Or test on the raw attributes, then fill the fixed schema,
overwriting a default `None` only with non-`None`, non-empty-string
values. -/
def featureNormalized (geom : Option Geom) (attrs : Props) : Option Feature :=
  match geom with
  | none => none
  | some g =>
    match geomToWkt (some g) with
    | none => none
    | some wkt =>
      if !(inCoteDorProps attrs) then none
      else
        some { geometry := some g,
               properties := attrs.foldl attrStep (emptyAttrs.set "wkt_geom" (.vs wkt)) }

/-- A raw Naïades analysis record (the fields `feature_naiades_analyse`
reads), mapped to a fixed structure at the ingestion boundary. Coordinates
are numeric when present (the source feeds them straight to `float`). -/
structure NaiadesAnalyse where
  geometry : Option Geom := none
  longitude : Option ℚ := none
  latitude : Option ℚ := none
  code_departement : PyVal := .vnone
  code_station : PyVal := .vnone
  libelle_station : PyVal := .vnone
  code_commune : PyVal := .vnone
  libelle_commune : PyVal := .vnone
  nom_cours_eau : PyVal := .vnone
  nom_masse_deau : PyVal := .vnone
  code_parametre : PyVal := .vnone
  libelle_parametre : PyVal := .vnone
  resultat : PyVal := .vnone
  symbole_unite : PyVal := .vnone
  date_prelevement : PyVal := .vnone
deriving DecidableEq, Repr

/-- The geometry resolution shared by the feature builders: the embedded
geometry, else a Point built from lon/lat. -/
def resolveGeom (geometry : Option Geom) (lon lat : Option ℚ) : Option Geom :=
  match geometry with
  | some g => some g
  | none =>
    match lon, lat with
    | some x, some y => some { gtype := "Point", coords := [x, y] }
    | _, _ => none

/-- The raw attribute dict built by `feature_naiades_analyse`
(lines 322–351), in source order. -/
def naiadesAttrs (env : Env) (a : NaiadesAnalyse) : Props :=
  let code_dep := a.code_departement
  let date_prel := a.date_prelevement
  let annee : PyVal :=
    if pyTruthy date_prel then .vs (pyTake (pyStr date_prel) 4) else .vnone
  let meta := pppMetadataForParam env a.code_parametre a.libelle_parametre
  let conc := normalizeConc a.resultat a.symbole_unite
  let impact := computeImpact env a.code_parametre conc
  [("ppp_nom", meta.ppp_nom),
         ("ppp_usage", meta.ppp_usage),
         ("ppp_usages_typiques", meta.ppp_usages_typiques),
         ("ppp_taux_ugl", match conc with
           | some q => .vn q
           | none => .vnone),
         ("ppp_seuil_sanitaire_ugl", match impact.1 with
           | some q => .vn q
           | none => .vnone),
         ("ppp_ratio_seuil", match impact.2.1 with
           | some q => .vn q
           | none => .vnone),
         ("ppp_depassement", match impact.2.2 with
           | some b => .vb b
           | none => .vnone),
         ("source", .vs "Naïades"),
         ("type_donnee", .vs "impact_surface"),
         ("code_station", a.code_station),
         ("libelle_station", a.libelle_station),
         ("code_departement", pyOr code_dep (.vs CODE_DEPARTEMENT_COTE_DOR)),
         ("code_commune", a.code_commune),
         ("libelle_commune", a.libelle_commune),
         ("nom_cours_eau", a.nom_cours_eau),
         ("nom_masse_deau", a.nom_masse_deau),
         ("libelle_parametre", a.libelle_parametre),
         ("code_parametre", a.code_parametre),
         ("resultat", a.resultat),
         ("symbole_unite", a.symbole_unite),
         ("date_prelevement", date_prel),
         ("annee", annee),
         ("ppp_description", meta.ppp_description),
         ("ppp_url_inrs", meta.ppp_url_inrs),
         ("ppp_url_ephy", meta.ppp_url_ephy)]

/-- `sig.feature_naiades_analyse` (with its default source label). -/
def featureNaiadesAnalyse (env : Env) (a : NaiadesAnalyse) : Option Feature :=
  match resolveGeom a.geometry a.longitude a.latitude with
  | none => none
  | some g =>
    if a.code_departement != PyVal.vnone &&
        !(pyEq a.code_departement (.vs CODE_DEPARTEMENT_COTE_DOR)) then none
    else featureNormalized (some g) (naiadesAttrs env a)

/-- A raw ADES analysis record (the fields `feature_ades_analyse` reads). -/
structure AdesAnalyse where
  longitude : Option ℚ := none
  latitude : Option ℚ := none
  code_departement : PyVal := .vnone
  num_departement : PyVal := .vnone
  code_insee_actuel : PyVal := .vnone
  bss_id : PyVal := .vnone
  code_bss : PyVal := .vnone
  nom_commune_actuel : PyVal := .vnone
  code_param : PyVal := .vnone
  nom_param : PyVal := .vnone
  resultat : PyVal := .vnone
  symbole_unite : PyVal := .vnone
  date_debut_prelevement : PyVal := .vnone
deriving DecidableEq, Repr

/-- The raw attribute dict built by `feature_ades_analyse`
(lines 422–449), in source order. -/
def adesAttrs (env : Env) (a : AdesAnalyse) : Props :=
  let num_dep := a.num_departement
  let date_prel := a.date_debut_prelevement
  let annee : PyVal :=
    if pyTruthy date_prel then .vs (pyTake (pyStr date_prel) 4) else .vnone
  let meta := pppMetadataForParam env a.code_param a.nom_param
  let conc := normalizeConc a.resultat a.symbole_unite
  let impact := computeImpact env a.code_param conc
  [("ppp_nom", meta.ppp_nom),
         ("ppp_usage", meta.ppp_usage),
         ("ppp_usages_typiques", meta.ppp_usages_typiques),
         ("ppp_taux_ugl", match conc with
           | some q => .vn q
           | none => .vnone),
         ("ppp_seuil_sanitaire_ugl", match impact.1 with
           | some q => .vn q
           | none => .vnone),
         ("ppp_ratio_seuil", match impact.2.1 with
           | some q => .vn q
           | none => .vnone),
         ("ppp_depassement", match impact.2.2 with
           | some b => .vb b
           | none => .vnone),
         ("source", .vs "ADES"),
         ("type_donnee", .vs "impact_souterrain"),
         ("bss_id", a.bss_id),
         ("code_bss", a.code_bss),
         ("num_departement", if num_dep != PyVal.vnone then .vs (pyStr num_dep) else .vnone),
         ("nom_commune", a.nom_commune_actuel),
         ("code_departement", if eq21 num_dep then .vs CODE_DEPARTEMENT_COTE_DOR else .vnone),
         ("libelle_parametre", a.nom_param),
         ("code_parametre", a.code_param),
         ("resultat", a.resultat),
         ("symbole_unite", a.symbole_unite),
         ("date_prelevement", date_prel),
         ("annee", annee),
         ("ppp_description", meta.ppp_description),
         ("ppp_url_inrs", meta.ppp_url_inrs),
         ("ppp_url_ephy", meta.ppp_url_ephy)]

/-- `sig.feature_ades_analyse` (with its default source label). -/
def featureAdesAnalyse (env : Env) (a : AdesAnalyse) : Option Feature :=
  match a.longitude, a.latitude with
  | some x, some y =>
    if !(inCoteDor a.code_departement a.num_departement a.code_insee_actuel) then none
    else featureNormalized (some { gtype := "Point", coords := [x, y] }) (adesAttrs env a)
  | _, _ => none

/-- The default of `build_geojson_features`' `max_analyses_per_source`. -/
def MAX_ANALYSES_PER_SOURCE : ℕ := 50000

/-- `sig.build_geojson_features`: the surface-water then groundwater
analysis records, each source truncated to `max_analyses_per_source`
records, keeping only the records that yield a feature. (The two station
arguments of the Python signature are ignored by its body and omitted.) -/
def buildGeojsonFeatures (env : Env) (naiades_analyses : List NaiadesAnalyse)
    (ades_analyses : List AdesAnalyse) (max_analyses_per_source : ℕ) : List Feature :=
  ((naiades_analyses.take max_analyses_per_source).filterMap (featureNaiadesAnalyse env))
    ++ ((ades_analyses.take max_analyses_per_source).filterMap (featureAdesAnalyse env))

/-! ### Derived views (`sig_views.py`)

Each `export_*` function reads a feature collection, applies a pure
transformation, and writes the result; we model the transformation.
Python's `sorted` is a stable sort, modelled by `List.insertionSort`
(stable for the same preorder). `round` on our exact rationals is
round-half-to-even, matching Python's on floats. -/

/-- `sig_views.COLONNES_TOP10_ORDER`. -/
def COLONNES_TOP10_ORDER : List String :=
  ["substance", "usage_ppp", "amm_autorise", "concentration_ugl", "depassement_seuil_sanitaire",
   "ratio_seuil_sanitaire", "depassement_seuil_nqe", "top10_ppp_annee", "top10_rang",
   "lieu", "commune", "cours_eau", "masse_eau", "date_prelevement", "type_eau", "lien_fiche"]

/-- `sig_views.COLONNES_HOTSPOTS_ORDER`. -/
def COLONNES_HOTSPOTS_ORDER : List String :=
  ["substance", "usage_ppp", "amm_autorise", "n_depassements", "n_mesures",
   "depassement_seuil_nqe", "max_conc_ugl", "concentration_ugl", "depassement_seuil_sanitaire",
   "ratio_seuil_sanitaire", "taille_mm", "taille_inner_mm", "classe_taille", "type_depassement",
   "date_prelevement", "lieu", "commune", "cours_eau", "masse_eau", "type_eau", "lien_fiche",
   "annee_min", "annee_max"]

/-- Python `round(q, nd)`: round half to even at `nd` decimal places. -/
def pyRound (q : ℚ) (nd : ℕ) : ℚ :=
  let s := q * 10 ^ nd
  let f : ℤ := ⌊s⌋
  let r := s - f
  let i : ℤ :=
    if r < 1 / 2 then f
    else if 1 / 2 < r then f + 1
    else if f % 2 = 0 then f else f + 1
  (i : ℚ) / 10 ^ nd

/-- The grouping key of the top-10 counting pass: `(str(annee), str(code))`
when both are truthy, else no key (the row is skipped). -/
def topKey (f : Feature) : Option (String × String) :=
  let code := f.properties.get "code_parametre"
  let annee := f.properties.get "annee"
  if !(pyTruthy code) || !(pyTruthy annee) then none else some (pyStr annee, pyStr code)

/-- `counts[key] += 1` on an insertion-ordered dict. -/
def bumpCount (l : List ((String × String) × ℕ)) (k : String × String) :
    List ((String × String) × ℕ) :=
  match l with
  | [] => [(k, 1)]
  | kn :: rest => if kn.1 = k then (kn.1, kn.2 + 1) :: rest else kn :: bumpCount rest k

/-- The step of the counting fold: bump the key's count when the row has
one. -/
def countStep (acc : List ((String × String) × ℕ)) (f : Feature) :
    List ((String × String) × ℕ) :=
  match topKey f with
  | some k => bumpCount acc k
  | none => acc

/-- The per-`(year, code)` occurrence counts of `export_top10_ppp_par_annee`
(lines 59–67), in first-encounter order. -/
def countsOf (features : List Feature) : List ((String × String) × ℕ) :=
  features.foldl countStep []

/-- `by_year[annee].append((code, n))` on an insertion-ordered dict of
lists. -/
def appendByYear (l : List (String × List (String × ℕ))) (annee : String)
    (cn : String × ℕ) : List (String × List (String × ℕ)) :=
  match l with
  | [] => [(annee, [cn])]
  | av :: rest =>
    if av.1 = annee then (av.1, av.2 ++ [cn]) :: rest else av :: appendByYear rest annee cn

/-- The per-year group lists of `export_top10_ppp_par_annee` (lines 71–73). -/
def byYearOf (counts : List ((String × String) × ℕ)) :
    List (String × List (String × ℕ)) :=
  counts.foldl (fun acc kn => appendByYear acc kn.1.1 (kn.1.2, kn.2)) []

/-- `sorted(lst, key=lambda x: x[1], reverse=True)`: stable sort by count
descending. -/
def sortDescCount (l : List (String × ℕ)) : List (String × ℕ) :=
  List.insertionSort (fun a b => b.2 ≤ a.2) l

/-- The ten groups kept for one year (line 76). -/
def keptOf (features : List Feature) (annee : String) : List (String × ℕ) :=
  (sortDescCount (((byYearOf (countsOf features)).lookup annee).getD [])).take 10

/-- `enumerate(lst, start=i)` turned into a code → rank table. -/
def ranksFrom (i : ℕ) : List (String × ℕ) → List (String × ℕ)
  | [] => []
  | cn :: rest => (cn.1, i) :: ranksFrom (i + 1) rest

/-- `top_ranks.get(str(annee), {}).get(str(code))`. -/
def topRankOf (features : List Feature) (annee code : String) : Option ℕ :=
  (ranksFrom 1 (keptOf features annee)).lookup code

/-- The per-feature filtering/annotation pass of
`export_top10_ppp_par_annee` (lines 81–101): drop features without a truthy
year and code or whose group holds no rank; annotate the kept ones. -/
def annotateTop10 (features : List Feature) (f : Feature) : Option Feature :=
  let code := f.properties.get "code_parametre"
  let annee := f.properties.get "annee"
  if !(pyTruthy code) || !(pyTruthy annee) then none
  else
    match topRankOf features (pyStr annee) (pyStr code) with
    | none => none
    | some rk =>
      let props := (f.properties.setOrAppend "top10_ppp_annee" (.vb true)).setOrAppend
        "top10_rang" (.vn rk)
      some { geometry := f.geometry, properties := reorderProps props COLONNES_TOP10_ORDER }

/-- The feature collection written by `export_top10_ppp_par_annee`. -/
def top10View (features : List Feature) : List Feature :=
  features.filterMap (annotateTop10 features)

/-- The running aggregate of one `(type_eau, lieu, substance)` hotspot
group (`export_hotspots_ppp`, lines 140–161). -/
structure HotspotAgg where
  type_eau : PyVal
  lieu : PyVal
  substance : PyVal
  usage_ppp : PyVal
  amm_autorise : PyVal
  commune : PyVal
  cours_eau : PyVal
  masse_eau : PyVal
  lien_fiche : PyVal
  n_mesures : ℕ
  n_depassements : ℕ
  depassement_seuil_nqe : Bool
  max_conc_ugl : ℚ
  concentration_ugl : ℚ
  depassement_seuil_sanitaire : Bool
  max_ratio_seuil_sanitaire : Option ℚ
  annee_min : Option String
  annee_max : Option String
  date_prelevement : PyVal
  geometry : Option Geom
deriving DecidableEq, Repr

/-- The fresh aggregate created on a group's first row. -/
def initAgg (f : Feature) : HotspotAgg :=
  let props := f.properties
  { type_eau := pyOr (props.get "type_eau") (.vs "")
    lieu := pyOr (props.get "lieu") (.vs "")
    substance := props.get "substance"
    usage_ppp := props.get "usage_ppp"
    amm_autorise := props.get "amm_autorise"
    commune := props.get "commune"
    cours_eau := props.get "cours_eau"
    masse_eau := props.get "masse_eau"
    lien_fiche := props.get "lien_fiche"
    n_mesures := 0
    n_depassements := 0
    depassement_seuil_nqe := false
    max_conc_ugl := 0
    concentration_ugl := 0
    depassement_seuil_sanitaire := false
    max_ratio_seuil_sanitaire := none
    annee_min := none
    annee_max := none
    date_prelevement := .vnone
    geometry := f.geometry }

/-- First block of the per-row update (`export_hotspots_ppp` line 167):
the environmental-exceedance flag. -/
def stepNqe (f : Feature) (agg : HotspotAgg) : HotspotAgg :=
  if pyEq (f.properties.get "depassement_seuil_nqe") (.vs "oui") then
    { agg with depassement_seuil_nqe := true }
  else agg

/-- Second block (lines 171–179): max-ratio tracking. The recorded sampling
date moves only when the row's ratio strictly exceeds the current maximum
(or the maximum was unset); a tie leaves both untouched. -/
def stepRatio (f : Feature) (agg : HotspotAgg) : HotspotAgg :=
  let date_prel := f.properties.get "date_prelevement"
  let ratioVal := f.properties.get "ratio_seuil_sanitaire"
  if ratioVal != PyVal.vnone then
    match pyFloat ratioVal with
    | some rq =>
      match agg.max_ratio_seuil_sanitaire with
      | none => { agg with max_ratio_seuil_sanitaire := some rq, date_prelevement := date_prel }
      | some m =>
        if m < rq then
          { agg with max_ratio_seuil_sanitaire := some rq, date_prelevement := date_prel }
        else agg
    | none => agg
  else agg

/-- Third block (lines 180–198): measure count, year range, max
concentration and sanitary-exceedance count, guarded by a parseable
concentration. -/
def stepConc (f : Feature) (agg : HotspotAgg) : HotspotAgg :=
  let date_prel := f.properties.get "date_prelevement"
  let annee : Option String :=
    if pyTruthy date_prel then some (pyTake (pyStr date_prel) 4) else none
  let conc := f.properties.get "concentration_ugl"
  if conc != PyVal.vnone then
    match pyFloat conc with
    | some cq =>
      let agg := { agg with n_mesures := agg.n_mesures + 1 }
      let agg :=
        match annee with
        | some an =>
          let agg :=
            match agg.annee_min with
            | none => { agg with annee_min := some an }
            | some amin => if an < amin then { agg with annee_min := some an } else agg
          match agg.annee_max with
          | none => { agg with annee_max := some an }
          | some amax => if amax < an then { agg with annee_max := some an } else agg
        | none => agg
      let agg :=
        if agg.max_conc_ugl < cq then
          { agg with
            max_conc_ugl := cq
            concentration_ugl := cq
            date_prelevement :=
              if agg.date_prelevement = PyVal.vnone then date_prel else agg.date_prelevement }
        else agg
      if pyEq (f.properties.get "depassement_seuil_sanitaire") (.vs "oui") then
        { agg with n_depassements := agg.n_depassements + 1, depassement_seuil_sanitaire := true }
      else agg
    | none => agg
  else agg

/-- The per-row aggregate update of `export_hotspots_ppp` (lines 164–198):
NQE flag, then max-ratio tracking, then the concentration block. -/
def stepAgg (f : Feature) (agg : HotspotAgg) : HotspotAgg :=
  stepConc f (stepRatio f (stepNqe f agg))

/-- Dict upsert for the aggregation pass: a new group starts from the
current row's `initAgg`, and the row's update always runs. -/
def updAgg (l : List ((String × String × String) × HotspotAgg))
    (k : String × String × String) (step : HotspotAgg → HotspotAgg) (ini : HotspotAgg) :
    List ((String × String × String) × HotspotAgg) :=
  match l with
  | [] => [(k, step ini)]
  | kv :: rest => if kv.1 = k then (kv.1, step kv.2) :: rest else kv :: updAgg rest k step ini

/-- The grouping pass of `export_hotspots_ppp` (lines 128–198): rows
without a truthy substance or place are skipped. -/
def hotspotFold (features : List Feature) :
    List ((String × String × String) × HotspotAgg) :=
  features.foldl
    (fun aggs f =>
      let props := f.properties
      let substance := props.get "substance"
      let type_eau := pyOr (props.get "type_eau") (.vs "")
      let lieu := pyOr (props.get "lieu") (.vs "")
      if !(pyTruthy substance) || !(pyTruthy lieu) then aggs
      else
        updAgg aggs (pyStr type_eau, pyStr lieu, pyStrip (pyStr substance)) (stepAgg f)
          (initAgg f))
    []

/-- The derived symbology/classification fields and output feature of one
emitted hotspot group (lines 205–237). -/
def emitHotspot (agg : HotspotAgg) : Feature :=
  let ratioOut : PyVal :=
    match agg.max_ratio_seuil_sanitaire with
    | some m => .vn (pyRound m 2)
    | none => .vnone
  let rv : ℚ :=
    match agg.max_ratio_seuil_sanitaire with
    | some m => m
    | none => 1
  let part := min (max (rv - 1) 0) 9
  let bonus_nqe : ℚ := if agg.depassement_seuil_nqe then 3 / 2 else 0
  let taille := pyRound (4 + (3 / 4) * part + bonus_nqe) 1
  let taille_inner := pyRound (max (taille - 3 / 2) (3 / 2)) 1
  let classe : ℚ :=
    if 19 / 2 ≤ taille then 4
    else if 15 / 2 ≤ taille then 3
    else if 11 / 2 ≤ taille then 2
    else 1
  let typeDep : ℚ :=
    if agg.depassement_seuil_sanitaire && agg.depassement_seuil_nqe then 1
    else if agg.depassement_seuil_nqe then 2
    else 3
  let props : Props :=
    [("type_eau", agg.type_eau),
     ("lieu", agg.lieu),
     ("substance", agg.substance),
     ("usage_ppp", agg.usage_ppp),
     ("amm_autorise", agg.amm_autorise),
     ("commune", agg.commune),
     ("cours_eau", agg.cours_eau),
     ("masse_eau", agg.masse_eau),
     ("lien_fiche", agg.lien_fiche),
     ("n_mesures", .vn agg.n_mesures),
     ("n_depassements", .vn agg.n_depassements),
     ("depassement_seuil_nqe", .vb agg.depassement_seuil_nqe),
     ("max_conc_ugl", .vn agg.max_conc_ugl),
     ("concentration_ugl", .vn agg.concentration_ugl),
     ("depassement_seuil_sanitaire", .vb agg.depassement_seuil_sanitaire),
     ("annee_min", match agg.annee_min with
       | some s => .vs s
       | none => .vnone),
     ("annee_max", match agg.annee_max with
       | some s => .vs s
       | none => .vnone),
     ("date_prelevement", agg.date_prelevement),
     ("ratio_seuil_sanitaire", ratioOut),
     ("taille_mm", .vn taille),
     ("taille_inner_mm", .vn taille_inner),
     ("classe_taille", .vn classe),
     ("type_depassement", .vn typeDep)]
  { geometry := agg.geometry, properties := reorderProps props COLONNES_HOTSPOTS_ORDER }

/-- The feature collection written by `export_hotspots_ppp`: emit a group
only when it counted a sanitary exceedance or carries the NQE flag. -/
def hotspotView (features : List Feature) : List Feature :=
  (hotspotFold features).filterMap
    (fun ka =>
      if ka.2.n_depassements = 0 && !ka.2.depassement_seuil_nqe then none
      else some (emitHotspot ka.2))

/-! ## Claims -/

/-- **C10.** `build_geojson_features` only looks at the first
`max_analyses_per_source` records of each source list (default 50000):
its output equals the output computed on the truncated input lists, so
every record beyond the per-source limit is ignored whatever it contains. -/
theorem C10_build_truncates_per_source :
    MAX_ANALYSES_PER_SOURCE = 50000 ∧
    ∀ (env : Env) (na : List NaiadesAnalyse) (ad : List AdesAnalyse) (lim : ℕ),
      buildGeojsonFeatures env na ad lim =
        buildGeojsonFeatures env (na.take lim) (ad.take lim) lim := by
  refine ⟨rfl, fun env na ad lim => ?_⟩
  simp [buildGeojsonFeatures, List.take_take]

/-- **C2.** Exceedance is strict and total on its guards: the flag is `true`
iff a concentration exists, the resolved threshold is positive and the
ratio exceeds 1; a concentration equal to the threshold gives `false`;
concentration = threshold × 1.0001 gives `true`; a missing concentration or
a non-positive threshold leaves ratio and flag `None`. -/
theorem C2_exceedance_strict :
    ∀ (env : Env) (code : PyVal) (conc : Option ℚ),
      ((computeImpact env code conc).2.2 = some true ↔
        ∃ c, conc = some c ∧ 0 < seuilSanitaireUgL env code ∧ 1 < c / seuilSanitaireUgL env code) ∧
      (0 < seuilSanitaireUgL env code → conc = some (seuilSanitaireUgL env code) →
        (computeImpact env code conc).2.2 = some false) ∧
      (0 < seuilSanitaireUgL env code →
        conc = some (seuilSanitaireUgL env code * (10001 / 10000)) →
        (computeImpact env code conc).2.2 = some true) ∧
      (conc = none →
        (computeImpact env code conc).2.1 = none ∧ (computeImpact env code conc).2.2 = none) ∧
      (seuilSanitaireUgL env code ≤ 0 →
        (computeImpact env code conc).2.1 = none ∧ (computeImpact env code conc).2.2 = none) := by
  intro env code conc
  set s := seuilSanitaireUgL env code with hs
  refine ⟨?_, ?_, ?_, ?_, ?_⟩
  · constructor
    · intro h
      match hc : conc with
      | none => simp [computeImpact] at h
      | some c =>
        by_cases hpos : s != 0 && decide (0 < s)
        · refine ⟨c, rfl, ?_, ?_⟩
          · have := (Bool.and_eq_true _ _).mp hpos |>.2
            exact of_decide_eq_true this
          · simp only [computeImpact, ← hs, hpos, if_true] at h
            have := Option.some.inj h
            exact of_decide_eq_true this
        · simp only [computeImpact, ← hs, hpos, if_false] at h
          exact absurd h (by simp)
    · rintro ⟨c, hc, hposS, hr⟩
      have hne : s != 0 := by
        simp only [bne_iff_ne, ne_eq]
        exact fun h0 => absurd (h0 ▸ hposS) (lt_irrefl 0)
      have hd : decide (0 < s) = true := decide_eq_true hposS
      simp [hc, computeImpact, ← hs, hne, hd, hr]
  · intro hposS hc
    have hne : s != 0 := by
      simp only [bne_iff_ne, ne_eq]
      exact fun h0 => absurd (h0 ▸ hposS) (lt_irrefl 0)
    have hd : decide (0 < s) = true := decide_eq_true hposS
    have hs0 : s ≠ 0 := fun h0 => absurd (h0 ▸ hposS) (lt_irrefl 0)
    have : s / s = 1 := div_self hs0
    simp [hc, computeImpact, ← hs, hne, hd, this]
  · intro hposS hc
    have hne : s != 0 := by
      simp only [bne_iff_ne, ne_eq]
      exact fun h0 => absurd (h0 ▸ hposS) (lt_irrefl 0)
    have hd : decide (0 < s) = true := decide_eq_true hposS
    have hs0 : s ≠ 0 := fun h0 => absurd (h0 ▸ hposS) (lt_irrefl 0)
    have hr : s * (10001 / 10000) / s = 10001 / 10000 := by
      field_simp
      ring
    have : (1 : ℚ) < s * (10001 / 10000) / s := by rw [hr]; norm_num
    simp [hc, computeImpact, ← hs, hne, hd, this]
  · intro hc; simp [hc, computeImpact]
  · intro hle
    match hc : conc with
    | none => simp [computeImpact]
    | some c =>
      have : decide (0 < s) = false := decide_eq_false (not_lt.mpr hle)
      simp [computeImpact, ← hs, this]

/-- **C2 witness.** With the empty tables the threshold resolves to the
default 0.1 µg/L; a concentration of exactly 0.1 yields `false` and one of
0.1 × 1.0001 yields `true`. -/
theorem C2_exceedance_strict_witness :
    (computeImpact {} PyVal.vnone (some (1 / 10))).2.2 = some false ∧
    (computeImpact {} PyVal.vnone (some (10001 / 100000))).2.2 = some true := by
  have hseuil : seuilSanitaireUgL {} PyVal.vnone = 1 / 10 := rfl
  constructor
  · exact (C2_exceedance_strict {} PyVal.vnone (some (1 / 10))).2.1
      (by rw [hseuil]; norm_num) (by rw [hseuil])
  · exact (C2_exceedance_strict {} PyVal.vnone (some (10001 / 100000))).2.2.1
      (by rw [hseuil]; norm_num) (by rw [hseuil]; norm_num)

lemma pyEq_vs21_iff (v : PyVal) : pyEq v (.vs "21") = true ↔ v = .vs "21" := by
  cases v <;> simp [pyEq]

lemma eq21_iff (v : PyVal) : eq21 v = true ↔ v = .vs "21" ∨ v = .vn 21 := by
  cases v with
  | vnone => simp [eq21, pyEq]
  | vs s => simp [eq21, pyEq]
  | vn q => simp [eq21, pyEq]
  | vb b =>
    simp only [eq21, pyEq, Bool.or_eq_true, beq_iff_eq]
    constructor
    · rintro (h | h)
      · exact absurd h (by simp)
      · cases b <;> norm_num at h
    · rintro (h | h) <;> exact absurd h (by simp)

lemma inCoteDor_iff (d n i : PyVal) :
    inCoteDor d n i = true ↔
      (d = .vs "21" ∨ d = .vn 21) ∨ (n = .vs "21" ∨ n = .vn 21) ∨
        (pyTruthy i = true ∧ pyStartsWith (pyStrip (pyStr i)) "21" = true) := by
  rw [← eq21_iff, ← eq21_iff]
  unfold inCoteDor
  cases hd : eq21 d <;> cases hn : eq21 n <;> cases ht : pyTruthy i <;>
    cases hsw : pyStartsWith (pyStrip (pyStr i)) "21" <;> simp [hd, hn, ht, hsw]

lemma map_fst_set (p : Props) (k : String) (v : PyVal) :
    (Props.set p k v).map Prod.fst = p.map Prod.fst := by
  induction p with
  | nil => rfl
  | cons kv rest ih =>
    simp only [Props.set, List.map_cons] at ih ⊢
    cases h : kv.1 == k
    · simp only [Bool.cond_false, ih]
    · have hk : kv.1 = k := by simpa using h
      simp only [Bool.cond_true, ih, List.cons.injEq]
      exact ⟨hk.symm, trivial⟩

lemma lookup_set_self (p : Props) (k : String) (v : PyVal)
    (hmem : k ∈ p.map Prod.fst) : (Props.set p k v).lookup k = some v := by
  induction p with
  | nil => simp at hmem
  | cons kv rest ih =>
    cases h : kv.1 == k
    · have hne : kv.1 ≠ k := by simpa using h
      have hmem' : k ∈ rest.map Prod.fst := by
        rw [List.map_cons] at hmem
        rcases List.mem_cons.mp hmem with h' | h'
        · exact absurd h'.symm hne
        · exact h'
      have hkk : (k == kv.1) = false := by simp [Ne.symm hne]
      simp only [Props.set, List.map_cons, h, Bool.cond_false, List.lookup, hkk]
      exact ih hmem'
    · simp [Props.set, h, List.lookup]

lemma lookup_set_ne (p : Props) (k k' : String) (v : PyVal) (h : k' ≠ k) :
    (Props.set p k' v).lookup k = p.lookup k := by
  induction p with
  | nil => rfl
  | cons kv rest ih =>
    cases hh : kv.1 == k'
    · simp only [Props.set, List.map_cons, hh, Bool.cond_false, List.lookup]
      cases hkk : k == kv.1
      · simpa only [Props.set] using ih
      · rfl
    · have hk : kv.1 = k' := by simpa using hh
      have h1 : (k == k') = false := by simp [Ne.symm h]
      have h2 : (k == kv.1) = false := by simp [hk, Ne.symm h]
      simp only [Props.set, List.map_cons, hh, Bool.cond_true, List.lookup, h1, h2]
      simpa only [Props.set] using ih

lemma foldl_attrStep_map_fst (attrs : Props) (out : Props) :
    (attrs.foldl attrStep out).map Prod.fst = out.map Prod.fst := by
  induction attrs generalizing out with
  | nil => rfl
  | cons kv rest ih =>
    rw [List.foldl_cons, ih]
    unfold attrStep
    by_cases hg : (kv.2 != PyVal.vnone && !(pyEq kv.2 (.vs ""))) = true
    · rw [if_pos hg, map_fst_set]
    · rw [if_neg hg]

lemma foldl_attrStep_lookup_not_mem (attrs : Props) (out : Props) (k : String)
    (h : k ∉ attrs.map Prod.fst) : (attrs.foldl attrStep out).lookup k = out.lookup k := by
  induction attrs generalizing out with
  | nil => rfl
  | cons kv rest ih =>
    have hk : kv.1 ≠ k := fun he => h (by simp [he])
    have h' : k ∉ rest.map Prod.fst := fun hm => h (by simp [hm])
    rw [List.foldl_cons, ih _ h']
    unfold attrStep
    by_cases hg : (kv.2 != PyVal.vnone && !(pyEq kv.2 (.vs ""))) = true
    · rw [if_pos hg, lookup_set_ne _ _ _ _ hk]
    · rw [if_neg hg]

lemma foldl_attrStep_lookup_mem (attrs : Props) (out : Props) (k : String) (v : PyVal)
    (hnodup : (attrs.map Prod.fst).Nodup) (hlk : attrs.lookup k = some v)
    (hv1 : v ≠ PyVal.vnone) (hv2 : pyEq v (.vs "") = false)
    (hmem : k ∈ out.map Prod.fst) :
    (attrs.foldl attrStep out).lookup k = some v := by
  induction attrs generalizing out with
  | nil => simp [List.lookup] at hlk
  | cons kv rest ih =>
    rw [List.foldl_cons]
    by_cases hh : k == kv.1
    · have hkk : k = kv.1 := by simpa using hh
      have hv : kv.2 = v := by simpa [List.lookup, hh] using hlk
      have hg : (kv.2 != PyVal.vnone && !(pyEq kv.2 (.vs ""))) = true := by
        rw [hv]
        simp [bne_iff_ne, hv1, hv2]
      have hrest : k ∉ rest.map Prod.fst := by
        rw [hkk]
        exact (List.nodup_cons.mp hnodup).1
      rw [foldl_attrStep_lookup_not_mem rest _ k hrest]
      unfold attrStep
      rw [if_pos hg, ← hkk, hv]
      exact lookup_set_self out k v hmem
    · have hne : kv.1 ≠ k := fun he => by simp [he] at hh
      have hlk' : rest.lookup k = some v := by simpa [List.lookup, hh] using hlk
      have hmem' : k ∈ (attrStep out kv).map Prod.fst := by
        unfold attrStep
        by_cases hg : (kv.2 != PyVal.vnone && !(pyEq kv.2 (.vs ""))) = true
        · rw [if_pos hg, map_fst_set]
          exact hmem
        · rw [if_neg hg]
          exact hmem
      exact ih _ (List.nodup_cons.mp hnodup).2 hlk' hmem'

lemma emptyAttrs_map_fst : emptyAttrs.map Prod.fst = COLONNES_ATTR := by
  simp [emptyAttrs, List.map_map, Function.comp_def]

lemma naiadesAttrs_get_dep (env : Env) (a : NaiadesAnalyse) :
    (naiadesAttrs env a).get "code_departement" =
      pyOr a.code_departement (.vs CODE_DEPARTEMENT_COTE_DOR) ∧
    (naiadesAttrs env a).get "num_departement" = .vnone ∧
    (naiadesAttrs env a).get "code_commune" = a.code_commune ∧
    (naiadesAttrs env a).get "code_insee" = .vnone := by
  refine ⟨?_, ?_, ?_, ?_⟩ <;> simp +decide [naiadesAttrs, Props.get, List.lookup]

lemma adesAttrs_get_dep (env : Env) (a : AdesAnalyse) :
    (adesAttrs env a).get "code_departement" =
      (if eq21 a.num_departement then PyVal.vs CODE_DEPARTEMENT_COTE_DOR else .vnone) ∧
    (adesAttrs env a).get "num_departement" =
      (if a.num_departement != PyVal.vnone then PyVal.vs (pyStr a.num_departement)
        else .vnone) ∧
    (adesAttrs env a).get "code_commune" = .vnone ∧
    (adesAttrs env a).get "code_insee" = .vnone := by
  refine ⟨?_, ?_, ?_, ?_⟩ <;> simp +decide [adesAttrs, Props.get, List.lookup]

lemma featureNormalized_isSome (geom : Option Geom) (attrs : Props) :
    (featureNormalized geom attrs).isSome = true ↔
      ∃ g, geom = some g ∧ (geomToWkt (some g)).isSome = true ∧
        inCoteDor (attrs.get "code_departement") (attrs.get "num_departement")
          (pyOr (attrs.get "code_commune") (attrs.get "code_insee")) = true := by
  match geom with
  | none => simp [featureNormalized]
  | some g =>
    match hw : geomToWkt (some g) with
    | none => simp [featureNormalized, hw]
    | some wkt =>
      by_cases hc : inCoteDor (attrs.get "code_departement") (attrs.get "num_departement")
          (pyOr (attrs.get "code_commune") (attrs.get "code_insee")) = true
      · simp [featureNormalized, inCoteDorProps, hw, hc]
      · simp only [Bool.not_eq_true] at hc
        simp [featureNormalized, inCoteDorProps, hw, hc]

/-- **C1 counterexample.** The OR-of-three-signals rule does not hold at the
analysis-path level: a Naïades record whose department-code field is the
number 21 (a numeric match for one of the three signals, accepted by
`_in_cote_dor`) yields no feature, and an ADES record whose only location
signal is INSEE code "21231" (also accepted by `_in_cote_dor`) yields no
feature either. -/
theorem C1_counterexample_paths_vs_or_rule :
    inCoteDor (.vn 21) .vnone .vnone = true ∧
    featureNaiadesAnalyse {}
      { geometry := some ⟨"Point", [4, 47]⟩, code_departement := .vn 21 } = none ∧
    inCoteDor .vnone .vnone (.vs "21231") = true ∧
    featureAdesAnalyse {}
      { longitude := some 5, latitude := some 47, code_insee_actuel := .vs "21231" } = none := by
  refine ⟨by decide, by decide, by decide, by decide⟩

/-- **C1 (amended).** The OR-of-three-signals rule (department code equals
"21" as string or number, or the numeric-department field does, or the
INSEE/commune code starts with "21") is exactly `_in_cote_dor`. The Naïades
analysis path does not apply it to the raw record: it accepts a record with
usable geometry iff the department-code field is absent or is the string
"21" (numeric 21 is rejected; a record with no location signal at all is
accepted because the department attribute then defaults to "21"). The ADES
analysis path applies the rule to the raw record but re-checks it on
normalized attributes that carry neither commune nor INSEE code, so it
additionally requires the numeric-department field to equal "21"/21 or to
print as "21"; an INSEE-only record is dropped. -/
theorem C1_department_filter_characterization :
    (∀ d n i, inCoteDor d n i = true ↔
      (d = .vs "21" ∨ d = .vn 21) ∨ (n = .vs "21" ∨ n = .vn 21) ∨
        (pyTruthy i = true ∧ pyStartsWith (pyStrip (pyStr i)) "21" = true)) ∧
    (∀ (env : Env) (a : NaiadesAnalyse),
      (featureNaiadesAnalyse env a).isSome = true ↔
        (geomToWkt (resolveGeom a.geometry a.longitude a.latitude)).isSome = true ∧
          (a.code_departement = .vnone ∨ a.code_departement = .vs "21")) ∧
    (∀ (env : Env) (a : AdesAnalyse),
      (featureAdesAnalyse env a).isSome = true ↔
        a.longitude.isSome = true ∧ a.latitude.isSome = true ∧
          inCoteDor a.code_departement a.num_departement a.code_insee_actuel = true ∧
          (eq21 a.num_departement = true ∨
            (a.num_departement ≠ .vnone ∧ pyStr a.num_departement = "21"))) := by
  refine ⟨inCoteDor_iff, fun env a => ?_, fun env a => ?_⟩
  · match hg : resolveGeom a.geometry a.longitude a.latitude with
    | none => simp [featureNaiadesAnalyse, hg, geomToWkt]
    | some g =>
      by_cases hd :
        (a.code_departement != PyVal.vnone && !(pyEq a.code_departement (.vs "21"))) = true
      · have hd' := hd
        rw [Bool.and_eq_true, bne_iff_ne, Bool.not_eq_true'] at hd'
        have hne : ¬(a.code_departement = .vs "21") := fun h => by
          have := (pyEq_vs21_iff a.code_departement).mpr h
          rw [this] at hd'
          exact absurd hd'.2 (by simp)
        simp only [featureNaiadesAnalyse, hg, CODE_DEPARTEMENT_COTE_DOR]
        rw [if_pos hd]
        simp [hd'.1, hne]
      · have hd' := hd
        rw [Bool.and_eq_true, not_and_or, bne_iff_ne, Bool.not_eq_true',
          Bool.not_eq_false] at hd'
        have hdep : a.code_departement = PyVal.vnone ∨ a.code_departement = .vs "21" := by
          rcases hd' with h | h
          · exact Or.inl (not_not.mp h)
          · exact Or.inr ((pyEq_vs21_iff a.code_departement).mp h)
        have hor : pyOr a.code_departement (.vs CODE_DEPARTEMENT_COTE_DOR) = .vs "21" := by
          rcases hdep with h | h <;> simp [h, pyOr, pyTruthy, CODE_DEPARTEMENT_COTE_DOR]
        simp only [featureNaiadesAnalyse, hg, CODE_DEPARTEMENT_COTE_DOR]
        rw [if_neg (by simpa using hd)]
        rw [featureNormalized_isSome]
        rw [(naiadesAttrs_get_dep env a).1, hor]
        have hin : inCoteDor (.vs "21") ((naiadesAttrs env a).get "num_departement")
            (pyOr ((naiadesAttrs env a).get "code_commune")
              ((naiadesAttrs env a).get "code_insee")) = true := by
          rw [inCoteDor_iff]
          exact Or.inl (Or.inl rfl)
        constructor
        · rintro ⟨g', hgg, hwkt, -⟩
          cases hgg
          exact ⟨hwkt, hdep⟩
        · rintro ⟨hwkt, -⟩
          exact ⟨g, rfl, hwkt, hin⟩
  · match hlon : a.longitude, hlat : a.latitude with
    | none, _ => simp [featureAdesAnalyse, hlon]
    | some x, none => simp [featureAdesAnalyse, hlon, hlat]
    | some x, some y =>
      by_cases h1 : inCoteDor a.code_departement a.num_departement a.code_insee_actuel = true
      · simp only [featureAdesAnalyse, hlon, hlat]
        rw [if_neg (by simp [h1])]
        rw [featureNormalized_isSome]
        have hg := adesAttrs_get_dep env a
        rw [hg.1, hg.2.1, hg.2.2.1, hg.2.2.2]
        have hcond :
            inCoteDor (if eq21 a.num_departement then PyVal.vs CODE_DEPARTEMENT_COTE_DOR
                else .vnone)
              (if a.num_departement != PyVal.vnone then PyVal.vs (pyStr a.num_departement)
                else .vnone)
              (pyOr PyVal.vnone PyVal.vnone) = true ↔
            (eq21 a.num_departement = true ∨
              (a.num_departement ≠ .vnone ∧ pyStr a.num_departement = "21")) := by
          rw [inCoteDor_iff]
          by_cases he : eq21 a.num_departement = true
          · simp +decide [he, CODE_DEPARTEMENT_COTE_DOR]
          · by_cases hn : a.num_departement = PyVal.vnone
            · simp +decide [he, hn]
            · have hbn : (a.num_departement != PyVal.vnone) = true := by
                simpa [bne_iff_ne] using hn
              simp +decide [he, hbn, hn, pyOr, pyTruthy]
        constructor
        · rintro ⟨g', hgg, hwkt, hc⟩
          cases hgg
          exact ⟨rfl, rfl, h1, hcond.mp hc⟩
        · rintro ⟨-, -, -, h2⟩
          exact ⟨⟨"Point", [x, y]⟩, rfl, by simp [geomToWkt], hcond.mpr h2⟩
      · simp only [featureAdesAnalyse, hlon, hlat]
        rw [if_pos (by simp [h1])]
        simp [h1]

/-- **C7 counterexample.** Only the U+00B5 micro sign is normalized: the
same well-formed value with the unit spelled with the Greek small letter mu
(U+03BC), a standard alternate encoding of the micro sign (its NFKC normal
form), yields a null concentration instead of being kept as µg/L. -/
theorem C7_counterexample_micro_sign :
    pyFloat (.vs "1") = some 1 ∧
    normalizeConc (.vs "1") (.vs "µg/L") = some 1 ∧
    normalizeConc (.vs "1") (.vs "μg/L") = none := by
  refine ⟨by decide, by decide, by decide⟩

/-- **C7 (amended).** A non-null concentration requires the value to parse
as a decimal and the unit, after replacing the U+00B5 micro sign by "u", to
read "ug/L" (kept as-is) or "mg/L" (× 1000); 0.0005 mg/L gives exactly
0.5 µg/L; any other unit — including µg/L spelled with the Greek letter mu
U+03BC, which is not normalized — or a missing value or unit gives a null
concentration without raising. -/
theorem C7_unit_normalization :
    (∀ (r u : PyVal) (c : ℚ), normalizeConc r u = some c →
      ∃ v, pyFloat r = some v ∧
        ((unitNorm (pyStr u) = "µg/L" ∨ unitNorm (pyStr u) = "ug/L") ∧ c = v ∨
          unitNorm (pyStr u) = "mg/L" ∧ c = v * 1000)) ∧
    (∀ r u, unitNorm (pyStr u) ≠ "µg/L" → unitNorm (pyStr u) ≠ "ug/L" →
      unitNorm (pyStr u) ≠ "mg/L" → normalizeConc r u = none) ∧
    (∀ r u, pyFloat r = none → normalizeConc r u = none) ∧
    (∀ u, normalizeConc .vnone u = none) ∧
    (∀ r, normalizeConc r .vnone = none) ∧
    (∀ q : ℚ, normalizeConc (.vn q) (.vs "ug/L") = some q) ∧
    (∀ q : ℚ, normalizeConc (.vn q) (.vs "µg/L") = some q) ∧
    (∀ q : ℚ, normalizeConc (.vn q) (.vs "mg/L") = some (q * 1000)) ∧
    normalizeConc (.vs "0.0005") (.vs "mg/L") = some (1 / 2) ∧
    normalizeConc (.vs "1") (.vs "μg/L") = none := by
  refine ⟨?_, ?_, ?_, ?_, ?_, ?_, ?_, ?_, ?_, by decide⟩
  · intro r u c h
    by_cases hru : (r != PyVal.vnone && u != PyVal.vnone) = true
    · match hf : pyFloat r with
      | none => simp [normalizeConc, hru, hf] at h
      | some v =>
        refine ⟨v, rfl, ?_⟩
        by_cases h1 : (unitNorm (pyStr u) == "µg/L" || unitNorm (pyStr u) == "ug/L") = true
        · simp [normalizeConc, hru, hf, h1] at h
          refine Or.inl ⟨?_, h.symm⟩
          rcases (Bool.or_eq_true _ _).mp h1 with h2 | h2
          · exact Or.inl (by simpa using h2)
          · exact Or.inr (by simpa using h2)
        · by_cases h2 : (unitNorm (pyStr u) == "mg/L") = true
          · simp [normalizeConc, hru, hf, h1, h2] at h
            exact Or.inr ⟨by simpa using h2, h.symm⟩
          · simp [normalizeConc, hru, hf, h1, h2] at h
    · simp [normalizeConc, hru] at h
  · intro r u h1 h2 h3
    by_cases hru : (r != PyVal.vnone && u != PyVal.vnone) = true
    · match hf : pyFloat r with
      | none => simp [normalizeConc, hru, hf]
      | some v => simp [normalizeConc, hru, hf, h1, h2, h3]
    · simp [normalizeConc, hru]
  · intro r u hf
    by_cases hru : (r != PyVal.vnone && u != PyVal.vnone) = true
    · simp [normalizeConc, hru, hf]
    · simp [normalizeConc, hru]
  · intro u; rfl
  · intro r; unfold normalizeConc; simp
  · intro q; rfl
  · intro q; rfl
  · intro q; rfl
  · simp +decide [normalizeConc, pyFloat, parsePyFloat, pyStrip, isPySpace, parseMantissa,
      takeDigits, digitsVal, applyExponent, unitNorm, pyStr]
    norm_num

/-- **C7 witness.** An unrecognized unit yields a null concentration, by the
amended theorem applied at "mol/L". -/
theorem C7_unit_normalization_witness :
    normalizeConc (.vs "3") (.vs "mol/L") = none :=
  C7_unit_normalization.2.1 (.vs "3") (.vs "mol/L") (by decide) (by decide) (by decide)

/-- **C6 counterexample.** A parse failure on an existing threshold-override
file does not propagate: `_load_thresholds` wraps the whole read in
`except Exception: thresholds = {}`, so the loader silently degrades to the
empty table and every parameter falls back to the generic 0.1 µg/L
default. -/
theorem C6_counterexample_threshold_loader_swallows :
    loadThresholds true (.error "line contains NUL") = [] ∧
    seuilSanitaireUgL { thresholds := loadThresholds true (.error "line contains NUL") }
      (.vs "1234") = DEFAULT_SANITAIRE_PPP_UGL := by
  exact ⟨rfl, rfl⟩

/-- **C6 (amended).** Only the manual-usage-override loader fails hard on an
unparseable existing file (its row loop is not wrapped in a `try`); the
threshold-override loader catches any exception and silently degrades to an
empty table instead of propagating, after which every threshold resolves to
the 0.1 µg/L default. On a successful parse both loaders process the rows. -/
theorem C6_loader_error_behaviour :
    (∀ e : String, loadPppUsages true (.error e) = .error e) ∧
    (∀ e : String, loadThresholds true (.error e) = []) ∧
    (∀ rows, loadPppUsages true (.ok rows) = .ok (processUsageRows rows)) ∧
    (∀ rows, loadThresholds true (.ok rows) = processThresholdRows rows) ∧
    (∀ (e : String) (code : PyVal),
      seuilSanitaireUgL { thresholds := loadThresholds true (.error e) } code =
        DEFAULT_SANITAIRE_PPP_UGL) := by
  refine ⟨fun e => rfl, fun e => rfl, fun rows => rfl, fun rows => rfl, fun e code => ?_⟩
  unfold seuilSanitaireUgL loadThresholds
  cases code <;> rfl

/-- **C9.** Usage-category resolution is a fixed priority chain with first
hit winning: (a) a manual override found under the stripped parameter code;
(b) otherwise a manual override found under the CAS number taken from the
catalog entry; (c) otherwise the ordered keyword heuristic (herbicide,
insecticide, fongicide, acaricide, rodenticide, nématicide, phéromone, in
that order); (d) otherwise no category. In particular a manual override
beats a conflicting keyword match. -/
theorem C9_usage_priority_chain :
    (∀ (env : Env) (code lib : PyVal) (m : UsageMeta) (u : String),
      code ≠ .vnone → pyStrip (pyStr code) ≠ "" →
      env.usagesByCode.lookup (pyStrip (pyStr code)) = some m →
      m.lookup "ppp_usage" = some u →
      resolvedUsage env code lib = some u) ∧
    (∀ (env : Env) (code lib : PyVal) (m : UsageMeta) (u : String),
      (code = .vnone ∨ pyStrip (pyStr code) = "" ∨
        env.usagesByCode.lookup (pyStrip (pyStr code)) = none) →
      c3poCasOf env code ≠ .vnone → pyStrip (pyStr (c3poCasOf env code)) ≠ "" →
      env.usagesByCas.lookup (pyStrip (pyStr (c3poCasOf env code))) = some m →
      m.lookup "ppp_usage" = some u →
      resolvedUsage env code lib = some u) ∧
    (∀ (env : Env) (code lib : PyVal),
      (lookupPppUsage env code (c3poCasOf env code)).bind
          (fun m => m.lookup "ppp_usage") = none →
      resolvedUsage env code lib =
        heuristicUsage
          (detectionText (c3poOf env code) (baseLabelOf (c3poOf env code) (asStr lib)))) ∧
    (∀ t, strContains t "herbicide" = true → heuristicUsage t = some "herbicide") ∧
    (∀ t, strContains t "herbicide" = false → strContains t "insecticide" = true →
      heuristicUsage t = some "insecticide") ∧
    (∀ t, strContains t "herbicide" = false → strContains t "insecticide" = false →
      strContains t "fongicide" = true → heuristicUsage t = some "fongicide") ∧
    (∀ t, strContains t "herbicide" = false → strContains t "insecticide" = false →
      strContains t "fongicide" = false → strContains t "acaricide" = true →
      heuristicUsage t = some "acaricide") ∧
    (∀ t, strContains t "herbicide" = false → strContains t "insecticide" = false →
      strContains t "fongicide" = false → strContains t "acaricide" = false →
      strContains t "rodenticide" = true → heuristicUsage t = some "rodenticide") ∧
    (∀ t, strContains t "herbicide" = false → strContains t "insecticide" = false →
      strContains t "fongicide" = false → strContains t "acaricide" = false →
      strContains t "rodenticide" = false →
      (strContains t "nematicide" = true ∨ strContains t "nématicide" = true) →
      heuristicUsage t = some "nématicide") ∧
    (∀ t, strContains t "herbicide" = false → strContains t "insecticide" = false →
      strContains t "fongicide" = false → strContains t "acaricide" = false →
      strContains t "rodenticide" = false → strContains t "nematicide" = false →
      strContains t "nématicide" = false →
      (strContains t "pheromone" = true ∨ strContains t "phéromone" = true) →
      heuristicUsage t = some "phéromone de confusion sexuelle") ∧
    (∀ t, strContains t "herbicide" = false → strContains t "insecticide" = false →
      strContains t "fongicide" = false → strContains t "acaricide" = false →
      strContains t "rodenticide" = false → strContains t "nematicide" = false →
      strContains t "nématicide" = false → strContains t "pheromone" = false →
      strContains t "phéromone" = false → heuristicUsage t = none) ∧
    resolvedUsage { usagesByCode := [("1199", [("ppp_usage", "insecticide")])] }
        (.vs "1199") (.vs "molécule herbicide") = some "insecticide" ∧
    resolvedUsage {} (.vs "1199") (.vs "molécule herbicide") = some "herbicide" := by
  refine ⟨?_, ?_, ?_, ?_, ?_, ?_, ?_, ?_, ?_, ?_, ?_, by decide, by decide⟩
  · intro env code lib m u hcode hstrip hfound hu
    have hbc : code != PyVal.vnone := by simpa [bne_iff_ne] using hcode
    have hbs : pyStrip (pyStr code) != "" := by simpa [bne_iff_ne] using hstrip
    simp [resolvedUsage, lookupPppUsage, hbc, hbs, hfound, hu]
  · intro env code lib m u hmiss hcas hcstrip hfound hu
    have hbc : c3poCasOf env code != PyVal.vnone := by simpa [bne_iff_ne] using hcas
    have hbs : pyStrip (pyStr (c3poCasOf env code)) != "" := by
      simpa [bne_iff_ne] using hcstrip
    have hnone : (if code != PyVal.vnone then
        (if pyStrip (pyStr code) != "" then
          env.usagesByCode.lookup (pyStrip (pyStr code)) else none) else none) = none := by
      rcases hmiss with h | h | h
      · simp [h]
      · simp [h]
      · by_cases h1 : code != PyVal.vnone
        · by_cases h2 : pyStrip (pyStr code) != "" <;> simp [h1, h2, h]
        · simp [h1]
    simp only [resolvedUsage, lookupPppUsage, hnone]
    simp [hbc, hbs, hfound, hu]
  · intro env code lib hnone
    simp only [resolvedUsage]
    rw [hnone]
  · intro t h; simp [heuristicUsage, h]
  · intro t h1 h2; simp [heuristicUsage, h1, h2]
  · intro t h1 h2 h3; simp [heuristicUsage, h1, h2, h3]
  · intro t h1 h2 h3 h4; simp [heuristicUsage, h1, h2, h3, h4]
  · intro t h1 h2 h3 h4 h5; simp [heuristicUsage, h1, h2, h3, h4, h5]
  · intro t h1 h2 h3 h4 h5 h6
    rcases h6 with h | h <;> simp [heuristicUsage, h1, h2, h3, h4, h5, h]
  · intro t h1 h2 h3 h4 h5 h6 h7 h8
    rcases h8 with h | h <;> simp [heuristicUsage, h1, h2, h3, h4, h5, h6, h7, h]
  · intro t h1 h2 h3 h4 h5 h6 h7 h8 h9
    simp [heuristicUsage, h1, h2, h3, h4, h5, h6, h7, h8, h9]

/-- **C9 witness.** The code-keyed manual override wins at a concrete
reference set where the label's keyword detection would say "herbicide". -/
theorem C9_usage_priority_chain_witness :
    resolvedUsage { usagesByCode := [("1199", [("ppp_usage", "insecticide")])] }
      (.vs "1199") (.vs "molécule herbicide") = some "insecticide" :=
  C9_usage_priority_chain.1 { usagesByCode := [("1199", [("ppp_usage", "insecticide")])] }
    (.vs "1199") (.vs "molécule herbicide") [("ppp_usage", "insecticide")] "insecticide"
    (by decide) (by decide) (by decide) (by decide)

lemma featureNormalized_eq_some {g : Geom} {attrs : Props} {f : Feature}
    (h : featureNormalized (some g) attrs = some f) :
    ∃ wkt, geomToWkt (some g) = some wkt ∧ inCoteDorProps attrs = true ∧
      f.geometry = some g ∧
      f.properties = attrs.foldl attrStep (emptyAttrs.set "wkt_geom" (.vs wkt)) := by
  dsimp only [featureNormalized] at h
  match hw : geomToWkt (some g) with
  | none => rw [hw] at h; cases h
  | some wkt =>
    rw [hw] at h
    dsimp only at h
    by_cases hc : inCoteDorProps attrs = true
    · rw [if_neg (by simp [hc])] at h
      have := Option.some.inj h
      exact ⟨wkt, rfl, hc, by rw [← this], by rw [← this]⟩
    · rw [if_pos (by simp only [Bool.not_eq_true] at hc; simp [hc])] at h
      cases h

lemma featureNormalized_keys {g : Geom} {attrs : Props} {f : Feature}
    (h : featureNormalized (some g) attrs = some f) :
    f.properties.map Prod.fst = COLONNES_ATTR := by
  obtain ⟨wkt, -, -, -, hp⟩ := featureNormalized_eq_some h
  rw [hp, foldl_attrStep_map_fst, map_fst_set, emptyAttrs_map_fst]

lemma geomToWkt_isSome {g : Geom} (h : (geomToWkt (some g)).isSome = true) :
    g.gtype = "Point" ∧ 2 ≤ g.coords.length := by
  dsimp only [geomToWkt] at h
  by_cases ht : g.gtype != "Point"
  · rw [if_pos ht] at h
    cases h
  · refine ⟨by simpa using ht, ?_⟩
    rw [if_neg ht] at h
    match hc : g.coords with
    | [] => rw [hc] at h; cases h
    | [c] => rw [hc] at h; cases h
    | c0 :: c1 :: rest => simp [hc]

lemma featureNaiades_eq_some {env : Env} {a : NaiadesAnalyse} {f : Feature}
    (h : featureNaiadesAnalyse env a = some f) :
    ∃ g, resolveGeom a.geometry a.longitude a.latitude = some g ∧
      (a.code_departement = .vnone ∨ a.code_departement = .vs "21") ∧
      featureNormalized (some g) (naiadesAttrs env a) = some f := by
  unfold featureNaiadesAnalyse at h
  match hg : resolveGeom a.geometry a.longitude a.latitude with
  | none => rw [hg] at h; cases h
  | some g =>
    rw [hg] at h
    dsimp only at h
    by_cases hd :
      (a.code_departement != PyVal.vnone && !(pyEq a.code_departement (.vs "21"))) = true
    · rw [if_pos (by simpa [CODE_DEPARTEMENT_COTE_DOR] using hd)] at h
      cases h
    · refine ⟨g, rfl, ?_, by
        rw [if_neg (by simpa [CODE_DEPARTEMENT_COTE_DOR] using hd)] at h
        exact h⟩
      rw [Bool.and_eq_true, not_and_or, bne_iff_ne, Bool.not_eq_true',
        Bool.not_eq_false] at hd
      rcases hd with h' | h'
      · exact Or.inl (not_not.mp h')
      · exact Or.inr ((pyEq_vs21_iff a.code_departement).mp h')

lemma featureAdes_eq_some {env : Env} {a : AdesAnalyse} {f : Feature}
    (h : featureAdesAnalyse env a = some f) :
    ∃ x y, a.longitude = some x ∧ a.latitude = some y ∧
      featureNormalized (some { gtype := "Point", coords := [x, y] })
        (adesAttrs env a) = some f := by
  unfold featureAdesAnalyse at h
  match hx : a.longitude, hy : a.latitude with
  | none, _ => rw [hx] at h; cases h
  | some x, none => rw [hx, hy] at h; cases h
  | some x, some y =>
    rw [hx, hy] at h
    dsimp only at h
    by_cases hc : inCoteDor a.code_departement a.num_departement a.code_insee_actuel = true
    · rw [if_neg (by simp [hc])] at h
      exact ⟨x, y, rfl, rfl, h⟩
    · rw [if_pos (by simp only [Bool.not_eq_true] at hc; simp [hc])] at h
      cases h

lemma adesAttrs_inCoteDorProps_iff (env : Env) (a : AdesAnalyse) :
    inCoteDorProps (adesAttrs env a) = true ↔
      eq21 a.num_departement = true ∨
        (a.num_departement ≠ .vnone ∧ pyStr a.num_departement = "21") := by
  unfold inCoteDorProps
  have hg := adesAttrs_get_dep env a
  rw [hg.1, hg.2.1, hg.2.2.1, hg.2.2.2, inCoteDor_iff]
  by_cases he : eq21 a.num_departement = true
  · simp +decide [he, CODE_DEPARTEMENT_COTE_DOR]
  · by_cases hn : a.num_departement = PyVal.vnone
    · simp +decide [he, hn]
    · have hbn : (a.num_departement != PyVal.vnone) = true := by simpa [bne_iff_ne] using hn
      simp +decide [he, hbn, hn, pyOr, pyTruthy]

lemma naiadesAttrs_lookup_dep (env : Env) (a : NaiadesAnalyse) :
    (naiadesAttrs env a).lookup "code_departement" =
      some (pyOr a.code_departement (.vs CODE_DEPARTEMENT_COTE_DOR)) := by
  simp +decide [naiadesAttrs, List.lookup]

lemma adesAttrs_lookup_dep (env : Env) (a : AdesAnalyse) :
    (adesAttrs env a).lookup "code_departement" =
      some (if eq21 a.num_departement then PyVal.vs CODE_DEPARTEMENT_COTE_DOR
        else .vnone) ∧
    (adesAttrs env a).lookup "num_departement" =
      some (if a.num_departement != PyVal.vnone then PyVal.vs (pyStr a.num_departement)
        else .vnone) := by
  refine ⟨?_, ?_⟩ <;> simp +decide [adesAttrs, List.lookup]

lemma naiadesAttrs_nodup (env : Env) (a : NaiadesAnalyse) :
    ((naiadesAttrs env a).map Prod.fst).Nodup := by
  have : (naiadesAttrs env a).map Prod.fst =
      ["ppp_nom", "ppp_usage", "ppp_usages_typiques", "ppp_taux_ugl",
       "ppp_seuil_sanitaire_ugl", "ppp_ratio_seuil", "ppp_depassement", "source",
       "type_donnee", "code_station", "libelle_station", "code_departement",
       "code_commune", "libelle_commune", "nom_cours_eau", "nom_masse_deau",
       "libelle_parametre", "code_parametre", "resultat", "symbole_unite",
       "date_prelevement", "annee", "ppp_description", "ppp_url_inrs", "ppp_url_ephy"] := by
    simp [naiadesAttrs]
  rw [this]
  decide

lemma adesAttrs_nodup (env : Env) (a : AdesAnalyse) :
    ((adesAttrs env a).map Prod.fst).Nodup := by
  have : (adesAttrs env a).map Prod.fst =
      ["ppp_nom", "ppp_usage", "ppp_usages_typiques", "ppp_taux_ugl",
       "ppp_seuil_sanitaire_ugl", "ppp_ratio_seuil", "ppp_depassement", "source",
       "type_donnee", "bss_id", "code_bss", "num_departement", "nom_commune",
       "code_departement", "libelle_parametre", "code_parametre", "resultat",
       "symbole_unite", "date_prelevement", "annee", "ppp_description", "ppp_url_inrs",
       "ppp_url_ephy"] := by
    simp [adesAttrs]
  rw [this]
  decide

lemma buildFeature_keys {env : Env} {na : List NaiadesAnalyse} {ad : List AdesAnalyse}
    {lim : ℕ} {f : Feature} (hf : f ∈ buildGeojsonFeatures env na ad lim) :
    f.properties.map Prod.fst = COLONNES_ATTR := by
  unfold buildGeojsonFeatures at hf
  rcases List.mem_append.mp hf with hmem | hmem
  · obtain ⟨a, -, ha⟩ := List.mem_filterMap.mp hmem
    obtain ⟨g, -, -, hn⟩ := featureNaiades_eq_some ha
    exact featureNormalized_keys hn
  · obtain ⟨a, -, ha⟩ := List.mem_filterMap.mp hmem
    obtain ⟨x, y, -, -, hn⟩ := featureAdes_eq_some ha
    exact featureNormalized_keys hn

lemma lookup_eq_none_of_not_mem (p : Props) (k : String) (h : k ∉ p.map Prod.fst) :
    p.lookup k = none := by
  induction p with
  | nil => rfl
  | cons kv rest ih =>
    have hne : k ≠ kv.1 := fun he => h (by simp [he])
    have h' : k ∉ rest.map Prod.fst := fun hm => h (by simp [hm])
    have hb : (k == kv.1) = false := by simp [hne]
    simp only [List.lookup, hb]
    exact ih h'

lemma hotspotFold_nil_of_skipped (features : List Feature)
    (h : ∀ f ∈ features, pyTruthy (f.properties.get "substance") = false) :
    hotspotFold features = [] := by
  unfold hotspotFold
  induction features with
  | nil => rfl
  | cons f rest ih =>
    rw [List.foldl_cons]
    have hstep :
        (if !(pyTruthy (f.properties.get "substance")) ||
            !(pyTruthy (pyOr (f.properties.get "lieu") (.vs ""))) then
          ([] : List ((String × String × String) × HotspotAgg))
        else
          updAgg [] (pyStr (pyOr (f.properties.get "type_eau") (.vs "")),
            pyStr (pyOr (f.properties.get "lieu") (.vs "")),
            pyStrip (pyStr (f.properties.get "substance"))) (stepAgg f) (initAgg f)) = [] := by
      rw [if_pos]
      rw [h f (List.mem_cons_self f rest)]
      simp
    simp only [hstep]
    exact ih (fun g hg => h g (List.mem_cons_of_mem f hg))

/-- **C3 counterexample.** `_feature_normalized` checks geometry and
department membership but never the parameter code: a Naïades analysis
record with a null `code_parametre` still yields a feature (whose
`code_parametre` property is null), contradicting the claimed third
condition. -/
theorem C3_counterexample_null_param_code :
    (buildGeojsonFeatures {}
        [{ geometry := some ⟨"Point", [4, 47]⟩, code_departement := .vs "21" }] [] 50000).map
      (fun f => f.properties.get "code_parametre") = [PyVal.vnone] := by
  decide

/-- **C3 (amended).** Every feature emitted by the builder has point
geometry with at least two coordinates, passes the Côte-d'Or test on its
normalized attribute table, and carries exactly the fixed schema keys — but
a null parameter code is not grounds for dropping a record. -/
theorem C3_emitted_feature_invariant :
    ∀ (env : Env) (na : List NaiadesAnalyse) (ad : List AdesAnalyse) (lim : ℕ)
      (f : Feature), f ∈ buildGeojsonFeatures env na ad lim →
      (∃ g, f.geometry = some g ∧ g.gtype = "Point" ∧ 2 ≤ g.coords.length) ∧
      inCoteDorProps f.properties = true ∧
      f.properties.map Prod.fst = COLONNES_ATTR := by
  intro env na ad lim f hf
  unfold buildGeojsonFeatures at hf
  rcases List.mem_append.mp hf with hmem | hmem
  · obtain ⟨a, -, ha⟩ := List.mem_filterMap.mp hmem
    obtain ⟨g, hg, hdep, hn⟩ := featureNaiades_eq_some ha
    obtain ⟨wkt, hw, hc, hgeom, hp⟩ := featureNormalized_eq_some hn
    refine ⟨⟨g, hgeom, geomToWkt_isSome (by rw [hw]; rfl)⟩, ?_, featureNormalized_keys hn⟩
    have hor : pyOr a.code_departement (.vs CODE_DEPARTEMENT_COTE_DOR) = .vs "21" := by
      rcases hdep with h | h <;> simp [h, pyOr, pyTruthy, CODE_DEPARTEMENT_COTE_DOR]
    have hlk : f.properties.lookup "code_departement" = some (.vs "21") := by
      rw [hp]
      refine foldl_attrStep_lookup_mem _ _ _ _ (naiadesAttrs_nodup env a) ?_ (by simp)
        (by decide) ?_
      · rw [naiadesAttrs_lookup_dep, hor]
      · rw [map_fst_set, emptyAttrs_map_fst]
        decide
    have hget : f.properties.get "code_departement" = .vs "21" := by
      unfold Props.get
      rw [hlk]
    unfold inCoteDorProps
    rw [inCoteDor_iff]
    exact Or.inl (Or.inl hget)
  · obtain ⟨a, -, ha⟩ := List.mem_filterMap.mp hmem
    obtain ⟨x, y, hx, hy, hn⟩ := featureAdes_eq_some ha
    obtain ⟨wkt, hw, hc, hgeom, hp⟩ := featureNormalized_eq_some hn
    refine ⟨⟨_, hgeom, rfl, by simp⟩, ?_, featureNormalized_keys hn⟩
    rcases (adesAttrs_inCoteDorProps_iff env a).mp hc with he | ⟨hnn, hps⟩
    · have hlk : f.properties.lookup "code_departement" = some (.vs "21") := by
        rw [hp]
        refine foldl_attrStep_lookup_mem _ _ _ _ (adesAttrs_nodup env a) ?_ (by simp)
          (by decide) ?_
        · rw [(adesAttrs_lookup_dep env a).1, if_pos he]
          rfl
        · rw [map_fst_set, emptyAttrs_map_fst]
          decide
      have hget : f.properties.get "code_departement" = .vs "21" := by
        unfold Props.get
        rw [hlk]
      unfold inCoteDorProps
      rw [inCoteDor_iff]
      exact Or.inl (Or.inl hget)
    · have hbn : (a.num_departement != PyVal.vnone) = true := by
        simpa [bne_iff_ne] using hnn
      have hlk : f.properties.lookup "num_departement" = some (.vs "21") := by
        rw [hp]
        refine foldl_attrStep_lookup_mem _ _ _ _ (adesAttrs_nodup env a) ?_ (by simp)
          (by decide) ?_
        · rw [(adesAttrs_lookup_dep env a).2, if_pos hbn, hps]
        · rw [map_fst_set, emptyAttrs_map_fst]
          decide
      have hget : f.properties.get "num_departement" = .vs "21" := by
        unfold Props.get
        rw [hlk]
      unfold inCoteDorProps
      rw [inCoteDor_iff]
      exact Or.inr (Or.inl (Or.inl hget))

/-- **C3 witness.** The invariant applied to the one feature built from a
concrete in-department Naïades record. -/
theorem C3_emitted_feature_invariant_witness :
    inCoteDorProps
      [("ppp_nom", PyVal.vnone), ("ppp_usage", PyVal.vnone), ("ppp_taux_ugl", PyVal.vnone),
       ("ppp_depassement", PyVal.vnone), ("ppp_seuil_sanitaire_ugl", PyVal.vnone),
       ("ppp_ratio_seuil", PyVal.vnone), ("ppp_usages_typiques", PyVal.vnone),
       ("libelle_station", PyVal.vnone), ("libelle_commune", PyVal.vnone),
       ("nom_commune", PyVal.vnone), ("nom_cours_eau", PyVal.vnone),
       ("nom_masse_deau", PyVal.vnone), ("code_station", PyVal.vnone),
       ("code_commune", PyVal.vnone), ("code_departement", PyVal.vs "21"),
       ("bss_id", PyVal.vnone), ("code_bss", PyVal.vnone), ("num_departement", PyVal.vnone),
       ("source", PyVal.vs "Naïades"), ("type_donnee", PyVal.vs "impact_surface"),
       ("wkt_geom", PyVal.vs "Point (4 47)"), ("libelle_parametre", PyVal.vnone),
       ("code_parametre", PyVal.vnone), ("resultat", PyVal.vnone),
       ("symbole_unite", PyVal.vnone), ("date_prelevement", PyVal.vnone),
       ("annee", PyVal.vnone),
       ("ppp_description", PyVal.vs
         "Substance phytopharmaceutique suivie dans les eaux ; consulter INRS et e-phy pour les usages détaillés."),
       ("ppp_url_inrs", PyVal.vs "https://www.inrs.fr/publications/bdd/fichetox.html"),
       ("ppp_url_ephy", PyVal.vs "https://ephy.anses.fr/")] = true :=
  (C3_emitted_feature_invariant {}
    [{ geometry := some ⟨"Point", [4, 47]⟩, code_departement := .vs "21" }] [] 50000
    { geometry := some ⟨"Point", [4, 47]⟩,
      properties :=
        [("ppp_nom", PyVal.vnone), ("ppp_usage", PyVal.vnone), ("ppp_taux_ugl", PyVal.vnone),
         ("ppp_depassement", PyVal.vnone), ("ppp_seuil_sanitaire_ugl", PyVal.vnone),
         ("ppp_ratio_seuil", PyVal.vnone), ("ppp_usages_typiques", PyVal.vnone),
         ("libelle_station", PyVal.vnone), ("libelle_commune", PyVal.vnone),
         ("nom_commune", PyVal.vnone), ("nom_cours_eau", PyVal.vnone),
         ("nom_masse_deau", PyVal.vnone), ("code_station", PyVal.vnone),
         ("code_commune", PyVal.vnone), ("code_departement", PyVal.vs "21"),
         ("bss_id", PyVal.vnone), ("code_bss", PyVal.vnone),
         ("num_departement", PyVal.vnone), ("source", PyVal.vs "Naïades"),
         ("type_donnee", PyVal.vs "impact_surface"), ("wkt_geom", PyVal.vs "Point (4 47)"),
         ("libelle_parametre", PyVal.vnone), ("code_parametre", PyVal.vnone),
         ("resultat", PyVal.vnone), ("symbole_unite", PyVal.vnone),
         ("date_prelevement", PyVal.vnone), ("annee", PyVal.vnone),
         ("ppp_description", PyVal.vs
           "Substance phytopharmaceutique suivie dans les eaux ; consulter INRS et e-phy pour les usages détaillés."),
         ("ppp_url_inrs", PyVal.vs "https://www.inrs.fr/publications/bdd/fichetox.html"),
         ("ppp_url_ephy", PyVal.vs "https://ephy.anses.fr/")] }
    (by decide)).2.1

/-- **C5.** The builder's fixed schema `COLONNES_ATTR` contains neither
"substance" nor "lieu" nor "concentration_ugl"; every built feature carries
exactly those schema keys, so `export_hotspots_ppp` skips every such
feature at its grouping step and always produces an empty hotspot
collection on builder output. -/
theorem C5_hotspots_of_build_always_empty :
    ("substance" ∉ COLONNES_ATTR ∧ "lieu" ∉ COLONNES_ATTR ∧
      "concentration_ugl" ∉ COLONNES_ATTR) ∧
    (∀ (env : Env) (na : List NaiadesAnalyse) (ad : List AdesAnalyse) (lim : ℕ)
      (f : Feature), f ∈ buildGeojsonFeatures env na ad lim →
      f.properties.map Prod.fst = COLONNES_ATTR) ∧
    (∀ (env : Env) (na : List NaiadesAnalyse) (ad : List AdesAnalyse) (lim : ℕ),
      hotspotView (buildGeojsonFeatures env na ad lim) = []) := by
  refine ⟨by decide, fun env na ad lim f hf => buildFeature_keys hf, fun env na ad lim => ?_⟩
  have hskip : ∀ f ∈ buildGeojsonFeatures env na ad lim,
      pyTruthy (f.properties.get "substance") = false := by
    intro f hf
    have hnone : f.properties.lookup "substance" = none :=
      lookup_eq_none_of_not_mem _ _ (by rw [buildFeature_keys hf]; decide)
    unfold Props.get
    rw [hnone]
    rfl
  unfold hotspotView
  rw [hotspotFold_nil_of_skipped _ hskip]
  rfl

/-- **C5 witness.** The schema-key conjunct applied to the one feature built
from a concrete in-department Naïades record. -/
theorem C5_hotspots_of_build_always_empty_witness :
    ([("ppp_nom", PyVal.vnone), ("ppp_usage", PyVal.vnone), ("ppp_taux_ugl", PyVal.vnone),
      ("ppp_depassement", PyVal.vnone), ("ppp_seuil_sanitaire_ugl", PyVal.vnone),
      ("ppp_ratio_seuil", PyVal.vnone), ("ppp_usages_typiques", PyVal.vnone),
      ("libelle_station", PyVal.vnone), ("libelle_commune", PyVal.vnone),
      ("nom_commune", PyVal.vnone), ("nom_cours_eau", PyVal.vnone),
      ("nom_masse_deau", PyVal.vnone), ("code_station", PyVal.vnone),
      ("code_commune", PyVal.vnone), ("code_departement", PyVal.vs "21"),
      ("bss_id", PyVal.vnone), ("code_bss", PyVal.vnone), ("num_departement", PyVal.vnone),
      ("source", PyVal.vs "Naïades"), ("type_donnee", PyVal.vs "impact_surface"),
      ("wkt_geom", PyVal.vs "Point (3 47)"), ("libelle_parametre", PyVal.vnone),
      ("code_parametre", PyVal.vnone), ("resultat", PyVal.vnone),
      ("symbole_unite", PyVal.vnone), ("date_prelevement", PyVal.vnone),
      ("annee", PyVal.vnone),
      ("ppp_description", PyVal.vs
        "Substance phytopharmaceutique suivie dans les eaux ; consulter INRS et e-phy pour les usages détaillés."),
      ("ppp_url_inrs", PyVal.vs "https://www.inrs.fr/publications/bdd/fichetox.html"),
      ("ppp_url_ephy", PyVal.vs "https://ephy.anses.fr/")] : Props).map Prod.fst =
      COLONNES_ATTR :=
  C5_hotspots_of_build_always_empty.2.1 {}
    [{ geometry := some ⟨"Point", [3, 47]⟩, code_departement := .vs "21" }] [] 50000
    { geometry := some ⟨"Point", [3, 47]⟩,
      properties :=
        [("ppp_nom", PyVal.vnone), ("ppp_usage", PyVal.vnone), ("ppp_taux_ugl", PyVal.vnone),
         ("ppp_depassement", PyVal.vnone), ("ppp_seuil_sanitaire_ugl", PyVal.vnone),
         ("ppp_ratio_seuil", PyVal.vnone), ("ppp_usages_typiques", PyVal.vnone),
         ("libelle_station", PyVal.vnone), ("libelle_commune", PyVal.vnone),
         ("nom_commune", PyVal.vnone), ("nom_cours_eau", PyVal.vnone),
         ("nom_masse_deau", PyVal.vnone), ("code_station", PyVal.vnone),
         ("code_commune", PyVal.vnone), ("code_departement", PyVal.vs "21"),
         ("bss_id", PyVal.vnone), ("code_bss", PyVal.vnone),
         ("num_departement", PyVal.vnone), ("source", PyVal.vs "Naïades"),
         ("type_donnee", PyVal.vs "impact_surface"),
         ("wkt_geom", PyVal.vs "Point (3 47)"), ("libelle_parametre", PyVal.vnone),
         ("code_parametre", PyVal.vnone), ("resultat", PyVal.vnone),
         ("symbole_unite", PyVal.vnone), ("date_prelevement", PyVal.vnone),
         ("annee", PyVal.vnone),
         ("ppp_description", PyVal.vs
           "Substance phytopharmaceutique suivie dans les eaux ; consulter INRS et e-phy pour les usages détaillés."),
         ("ppp_url_inrs", PyVal.vs "https://www.inrs.fr/publications/bdd/fichetox.html"),
         ("ppp_url_ephy", PyVal.vs "https://ephy.anses.fr/")] }
    (by decide)

lemma stepNqe_ratio_date (f : Feature) (agg : HotspotAgg) :
    (stepNqe f agg).max_ratio_seuil_sanitaire = agg.max_ratio_seuil_sanitaire ∧
    (stepNqe f agg).date_prelevement = agg.date_prelevement := by
  unfold stepNqe
  split <;> simp

lemma stepConc_ratio (f : Feature) (agg : HotspotAgg) :
    (stepConc f agg).max_ratio_seuil_sanitaire = agg.max_ratio_seuil_sanitaire := by
  unfold stepConc
  dsimp only
  repeat' split
  all_goals rfl

lemma stepConc_date (f : Feature) (agg : HotspotAgg)
    (h : agg.date_prelevement ≠ PyVal.vnone) :
    (stepConc f agg).date_prelevement = agg.date_prelevement := by
  unfold stepConc
  dsimp only
  repeat' split
  all_goals first
  | rfl
  | (exact absurd (by assumption) h)

lemma stepConc_date_eq (f : Feature) (agg : HotspotAgg)
    (h : agg.date_prelevement = f.properties.get "date_prelevement") :
    (stepConc f agg).date_prelevement = f.properties.get "date_prelevement" := by
  unfold stepConc
  dsimp only
  repeat' split
  all_goals first
  | (exact h)
  | rfl

lemma stepNqe_conc (f : Feature) (agg : HotspotAgg) :
    (stepNqe f agg).max_conc_ugl = agg.max_conc_ugl := by
  unfold stepNqe
  split <;> rfl

lemma stepConc_date_backfill (f : Feature) (agg : HotspotAgg) (cq : ℚ)
    (h1 : agg.date_prelevement = PyVal.vnone)
    (h2 : (f.properties.get "concentration_ugl" != PyVal.vnone) = true)
    (h3 : pyFloat (f.properties.get "concentration_ugl") = some cq)
    (h4 : agg.max_conc_ugl < cq) :
    (stepConc f agg).date_prelevement = f.properties.get "date_prelevement" := by
  unfold stepConc
  dsimp only
  rw [if_pos h2, h3]
  dsimp only
  by_cases hta : pyTruthy (f.properties.get "date_prelevement") = true
  case neg =>
    rw [if_neg hta]
    dsimp only
    rw [if_pos h4]
    rw [apply_ite HotspotAgg.date_prelevement]
    dsimp only
    rw [if_pos h1, ite_self]
  case pos =>
    rw [if_pos hta]
    dsimp only
    cases hmin : agg.annee_min with
    | none =>
      dsimp only
      cases hmax : agg.annee_max with
      | none =>
        dsimp only
        rw [if_pos h4]
        rw [apply_ite HotspotAgg.date_prelevement]
        dsimp only
        rw [if_pos h1, ite_self]
      | some amax =>
        dsimp only
        by_cases h6 : amax < pyTake (pyStr (f.properties.get "date_prelevement")) 4
        all_goals first
        | rw [if_pos h6]
        | rw [if_neg h6]
        all_goals
          dsimp only
          rw [if_pos h4]
          rw [apply_ite HotspotAgg.date_prelevement]
          dsimp only
          rw [if_pos h1, ite_self]
    | some amin =>
      dsimp only
      by_cases h5 : pyTake (pyStr (f.properties.get "date_prelevement")) 4 < amin
      all_goals first
      | rw [if_pos h5]
      | rw [if_neg h5]
      all_goals dsimp only
      all_goals cases hmax : agg.annee_max with
      | none =>
        dsimp only
        rw [if_pos h4]
        rw [apply_ite HotspotAgg.date_prelevement]
        dsimp only
        rw [if_pos h1, ite_self]
      | some amax =>
        dsimp only
        by_cases h6 : amax < pyTake (pyStr (f.properties.get "date_prelevement")) 4
        all_goals first
        | rw [if_pos h6]
        | rw [if_neg h6]
        all_goals
          dsimp only
          rw [if_pos h4]
          rw [apply_ite HotspotAgg.date_prelevement]
          dsimp only
          rw [if_pos h1, ite_self]

/-- **C8 counterexample.** Two rows of the same hotspot group with the same
ratio 2.0 but different sampling dates: the emitted group's date is the
first row's, not the last writer's — a row whose ratio merely equals the
current maximum does not replace the date. -/
theorem C8_counterexample_tie_keeps_first_date :
    (hotspotView
        [{ geometry := some ⟨"Point", [1, 2]⟩,
           properties := [("substance", .vs "S"), ("lieu", .vs "L"), ("type_eau", .vs "eau"),
             ("ratio_seuil_sanitaire", .vn 2), ("concentration_ugl", .vn 1),
             ("depassement_seuil_sanitaire", .vs "oui"),
             ("date_prelevement", .vs "2020-01-01")] },
         { geometry := some ⟨"Point", [1, 2]⟩,
           properties := [("substance", .vs "S"), ("lieu", .vs "L"), ("type_eau", .vs "eau"),
             ("ratio_seuil_sanitaire", .vn 2), ("concentration_ugl", .vn 1),
             ("depassement_seuil_sanitaire", .vs "oui"),
             ("date_prelevement", .vs "2021-06-06")] }]).map
      (fun f => f.properties.get "date_prelevement") = [.vs "2020-01-01"] := by
  simp +decide [hotspotView, hotspotFold, updAgg, stepAgg, stepNqe, stepRatio, stepConc,
    initAgg, emitHotspot, Props.get, reorderProps, COLONNES_HOTSPOTS_ORDER, pyFloat, pyEq,
    pyTruthy, pyOr, pyStr, pyTake, pyStrip, isPySpace]

/-- **C8 (amended).** Every hotspot group tracks the maximum
sanitary-threshold ratio over its rows. A row whose ratio strictly exceeds
the current maximum (or arrives while the maximum is unset) sets the
maximum to its ratio and the recorded sampling date to its own date. A row
whose ratio is at most the current maximum leaves the maximum unchanged,
and leaves the recorded date unchanged provided a date is already
recorded; when the recorded date is null, the concentration block's
backfill copies such a row's date whenever its concentration strictly
exceeds the group's running maximum concentration. -/
theorem C8_hotspot_max_date_semantics :
    (∀ (f : Feature) (agg : HotspotAgg) (r m : ℚ),
      f.properties.get "ratio_seuil_sanitaire" ≠ PyVal.vnone →
      pyFloat (f.properties.get "ratio_seuil_sanitaire") = some r →
      agg.max_ratio_seuil_sanitaire = some m → r ≤ m →
      agg.date_prelevement ≠ PyVal.vnone →
      (stepAgg f agg).max_ratio_seuil_sanitaire = some m ∧
        (stepAgg f agg).date_prelevement = agg.date_prelevement) ∧
    (∀ (f : Feature) (agg : HotspotAgg) (r : ℚ),
      f.properties.get "ratio_seuil_sanitaire" ≠ PyVal.vnone →
      pyFloat (f.properties.get "ratio_seuil_sanitaire") = some r →
      (agg.max_ratio_seuil_sanitaire = none ∨
        ∃ m, agg.max_ratio_seuil_sanitaire = some m ∧ m < r) →
      (stepAgg f agg).max_ratio_seuil_sanitaire = some r ∧
        (stepAgg f agg).date_prelevement = f.properties.get "date_prelevement") ∧
    (∀ (f : Feature) (agg : HotspotAgg) (r m cq : ℚ),
      f.properties.get "ratio_seuil_sanitaire" ≠ PyVal.vnone →
      pyFloat (f.properties.get "ratio_seuil_sanitaire") = some r →
      agg.max_ratio_seuil_sanitaire = some m → r ≤ m →
      agg.date_prelevement = PyVal.vnone →
      f.properties.get "concentration_ugl" ≠ PyVal.vnone →
      pyFloat (f.properties.get "concentration_ugl") = some cq →
      agg.max_conc_ugl < cq →
      (stepAgg f agg).max_ratio_seuil_sanitaire = some m ∧
        (stepAgg f agg).date_prelevement = f.properties.get "date_prelevement") := by
  refine ⟨?_, ?_, ?_⟩
  · intro f agg r m hne hr hm hle hdne
    have h0 := stepNqe_ratio_date f agg
    have hbne : (f.properties.get "ratio_seuil_sanitaire" != PyVal.vnone) = true := by
      simpa [bne_iff_ne] using hne
    have hR : stepRatio f (stepNqe f agg) = stepNqe f agg := by
      unfold stepRatio
      dsimp only
      rw [if_pos hbne, hr]
      dsimp only
      rw [h0.1, hm]
      dsimp only
      rw [if_neg (not_lt.mpr hle)]
    rw [stepAgg, hR]
    exact ⟨by rw [stepConc_ratio, h0.1, hm],
      by rw [stepConc_date _ _ (by rw [h0.2]; exact hdne), h0.2]⟩
  · intro f agg r hne hr hcase
    have h0 := stepNqe_ratio_date f agg
    have hbne : (f.properties.get "ratio_seuil_sanitaire" != PyVal.vnone) = true := by
      simpa [bne_iff_ne] using hne
    have hR : stepRatio f (stepNqe f agg) =
        { stepNqe f agg with
          max_ratio_seuil_sanitaire := some r
          date_prelevement := f.properties.get "date_prelevement" } := by
      unfold stepRatio
      dsimp only
      rw [if_pos hbne, hr]
      dsimp only
      rcases hcase with hnone | ⟨m, hsome, hlt⟩
      · rw [h0.1, hnone]
      · rw [h0.1, hsome]
        dsimp only
        rw [if_pos hlt]
    rw [stepAgg, hR]
    refine ⟨by rw [stepConc_ratio], ?_⟩
    exact stepConc_date_eq _ _ rfl
  · intro f agg r m cq hne hr hm hle hd hcne hcf hcc
    have h0 := stepNqe_ratio_date f agg
    have hbne : (f.properties.get "ratio_seuil_sanitaire" != PyVal.vnone) = true := by
      simpa [bne_iff_ne] using hne
    have hR : stepRatio f (stepNqe f agg) = stepNqe f agg := by
      unfold stepRatio
      dsimp only
      rw [if_pos hbne, hr]
      dsimp only
      rw [h0.1, hm]
      dsimp only
      rw [if_neg (not_lt.mpr hle)]
    rw [stepAgg, hR]
    refine ⟨by rw [stepConc_ratio, h0.1, hm], ?_⟩
    have hbc : (f.properties.get "concentration_ugl" != PyVal.vnone) = true := by
      simpa [bne_iff_ne] using hcne
    exact stepConc_date_backfill f (stepNqe f agg) cq (by rw [h0.2]; exact hd) hbc hcf
      (by rw [stepNqe_conc]; exact hcc)

/-- **C8 witness.** A strict increase replaces max and date, by the amended
theorem applied at a concrete row and aggregate. -/
theorem C8_hotspot_max_date_semantics_witness :
    (stepAgg
        { geometry := none,
          properties := [("ratio_seuil_sanitaire", .vn 3),
            ("date_prelevement", .vs "2022-02-02")] }
        (initAgg
          { geometry := none,
            properties := [("ratio_seuil_sanitaire", .vn 3),
              ("date_prelevement", .vs "2022-02-02")] })).max_ratio_seuil_sanitaire =
      some 3 ∧
    (stepAgg
        { geometry := none,
          properties := [("ratio_seuil_sanitaire", .vn 3),
            ("date_prelevement", .vs "2022-02-02")] }
        (initAgg
          { geometry := none,
            properties := [("ratio_seuil_sanitaire", .vn 3),
              ("date_prelevement", .vs "2022-02-02")] })).date_prelevement =
      Props.get [("ratio_seuil_sanitaire", .vn 3), ("date_prelevement", .vs "2022-02-02")]
        "date_prelevement" :=
  C8_hotspot_max_date_semantics.2.1
    { geometry := none,
      properties := [("ratio_seuil_sanitaire", .vn 3), ("date_prelevement", .vs "2022-02-02")] }
    (initAgg
      { geometry := none,
        properties := [("ratio_seuil_sanitaire", .vn 3),
          ("date_prelevement", .vs "2022-02-02")] })
    3 (by decide) (by decide) (Or.inl (by decide))

/-! ### Lemmas for the top-10 ranking view -/

instance : IsTotal (String × ℕ) (fun a b => b.2 ≤ a.2) :=
  ⟨fun a b => le_total b.2 a.2⟩

instance : IsTrans (String × ℕ) (fun a b => b.2 ≤ a.2) :=
  ⟨fun _ _ _ h1 h2 => le_trans h2 h1⟩

lemma bumpCount_lookup_self (l : List ((String × String) × ℕ)) (k : String × String) :
    (bumpCount l k).lookup k = some ((l.lookup k).getD 0 + 1) := by
  induction l with
  | nil => simp [bumpCount, List.lookup]
  | cons kn rest ih =>
    by_cases h : kn.1 = k
    · simp [bumpCount, h, List.lookup]
    · have hb : (k == kn.1) = false := by simp [Ne.symm h]
      simp only [bumpCount, if_neg h, List.lookup, hb]
      exact ih

lemma bumpCount_lookup_ne (l : List ((String × String) × ℕ)) (k k' : String × String)
    (h : k' ≠ k) : (bumpCount l k').lookup k = l.lookup k := by
  induction l with
  | nil =>
    have hb : (k == k') = false := by simp [Ne.symm h]
    simp [bumpCount, List.lookup, hb]
  | cons kn rest ih =>
    by_cases hh : kn.1 = k'
    · have hb : (k == k') = false := by simp [Ne.symm h]
      have hb2 : (k == kn.1) = false := by simp [hh, Ne.symm h]
      simp only [bumpCount, if_pos hh, List.lookup, hb, hb2, hh]
    · simp only [bumpCount, if_neg hh, List.lookup]
      cases hkk : k == kn.1
      · exact ih
      · rfl

lemma countsFold_lookup_some (fs : List Feature) (acc : List ((String × String) × ℕ))
    (k : String × String) (m : ℕ) (h : acc.lookup k = some m) :
    (fs.foldl countStep acc).lookup k =
      some (m + fs.countP (fun f => topKey f == some k)) := by
  induction fs generalizing acc m with
  | nil => simpa using h
  | cons f rest ih =>
    rw [List.foldl_cons, List.countP_cons]
    match ht : topKey f with
    | none =>
      rw [show countStep acc f = acc from by simp [countStep, ht]]
      rw [ih acc m h]
      simp
    | some k' =>
      by_cases hk : k' = k
      · subst hk
        have hb : (bumpCount acc k').lookup k' = some (m + 1) := by
          rw [bumpCount_lookup_self, h]
          rfl
        rw [show countStep acc f = bumpCount acc k' from by simp [countStep, ht]]
        rw [ih (bumpCount acc k') (m + 1) hb]
        simp only [beq_self_eq_true, if_true, Option.some.injEq]
        omega
      · have hb : (bumpCount acc k').lookup k = some m := by
          rw [bumpCount_lookup_ne acc k k' hk, h]
        rw [show countStep acc f = bumpCount acc k' from by simp [countStep, ht]]
        rw [ih (bumpCount acc k') m hb]
        have hbeq : (some k' == some k) = false := by simp [hk]
        simp [hbeq]

lemma countsFold_lookup_none (fs : List Feature) (acc : List ((String × String) × ℕ))
    (k : String × String) (h : acc.lookup k = none) :
    (fs.foldl countStep acc).lookup k =
      (if fs.countP (fun f => topKey f == some k) = 0 then none
        else some (fs.countP (fun f => topKey f == some k))) := by
  induction fs generalizing acc with
  | nil => simpa using h
  | cons f rest ih =>
    rw [List.foldl_cons, List.countP_cons]
    match ht : topKey f with
    | none =>
      rw [show countStep acc f = acc from by simp [countStep, ht]]
      rw [ih acc h]
      simp
    | some k' =>
      by_cases hk : k' = k
      · subst hk
        have hb : (bumpCount acc k').lookup k' = some 1 := by
          rw [bumpCount_lookup_self, h]
          rfl
        rw [show countStep acc f = bumpCount acc k' from by simp [countStep, ht]]
        rw [countsFold_lookup_some rest (bumpCount acc k') k' 1 hb]
        simp only [beq_self_eq_true, if_true]
        rw [if_neg (by omega)]
        simp only [Option.some.injEq]
        omega
      · have hb : (bumpCount acc k').lookup k = none := by
          rw [bumpCount_lookup_ne acc k k' hk, h]
        rw [show countStep acc f = bumpCount acc k' from by simp [countStep, ht]]
        rw [ih (bumpCount acc k') hb]
        have hbeq : (some k' == some k) = false := by simp [hk]
        simp [hbeq]

lemma appendByYear_lookup_self (l : List (String × List (String × ℕ))) (annee : String)
    (cn : String × ℕ) :
    (appendByYear l annee cn).lookup annee = some (((l.lookup annee).getD []) ++ [cn]) := by
  induction l with
  | nil => simp [appendByYear, List.lookup]
  | cons av rest ih =>
    by_cases h : av.1 = annee
    · simp [appendByYear, h, List.lookup]
    · have hb : (annee == av.1) = false := by simp [Ne.symm h]
      simp only [appendByYear, if_neg h, List.lookup, hb]
      exact ih

lemma appendByYear_lookup_ne (l : List (String × List (String × ℕ))) (annee a' : String)
    (cn : String × ℕ) (h : annee ≠ a') :
    (appendByYear l annee cn).lookup a' = l.lookup a' := by
  induction l with
  | nil =>
    have hb : (a' == annee) = false := by simp [Ne.symm h]
    simp [appendByYear, List.lookup, hb]
  | cons av rest ih =>
    by_cases hh : av.1 = annee
    · have hb : (a' == annee) = false := by simp [Ne.symm h]
      have hb2 : (a' == av.1) = false := by simp [hh, Ne.symm h]
      simp only [appendByYear, if_pos hh, List.lookup, hb, hb2, hh]
    · simp only [appendByYear, if_neg hh, List.lookup]
      cases hkk : a' == av.1
      · exact ih
      · rfl

/-- The step of the by-year regrouping fold. -/
lemma byYearFold_lookup (counts : List ((String × String) × ℕ))
    (acc : List (String × List (String × ℕ))) (annee : String) :
    ((counts.foldl (fun acc kn => appendByYear acc kn.1.1 (kn.1.2, kn.2)) acc).lookup
        annee).getD [] =
      ((acc.lookup annee).getD []) ++
        counts.filterMap
          (fun kn => if kn.1.1 = annee then some (kn.1.2, kn.2) else none) := by
  induction counts generalizing acc with
  | nil => simp
  | cons kn rest ih =>
    rw [List.foldl_cons, List.filterMap_cons]
    by_cases h : kn.1.1 = annee
    · rw [if_pos h]
      rw [ih (appendByYear acc kn.1.1 (kn.1.2, kn.2))]
      rw [h, appendByYear_lookup_self]
      simp
    · rw [if_neg h]
      rw [ih (appendByYear acc kn.1.1 (kn.1.2, kn.2))]
      rw [appendByYear_lookup_ne _ _ _ _ h]

lemma byYearOf_lookup (counts : List ((String × String) × ℕ)) (annee : String) :
    ((byYearOf counts).lookup annee).getD [] =
      counts.filterMap (fun kn => if kn.1.1 = annee then some (kn.1.2, kn.2) else none) := by
  unfold byYearOf
  rw [byYearFold_lookup]
  simp

lemma filter_orderedInsert (c : ℕ) (a : String × ℕ) (l : List (String × ℕ)) :
    (List.orderedInsert (fun x y => y.2 ≤ x.2) a l).filter (fun x => x.2 == c) =
      if a.2 = c then a :: l.filter (fun x => x.2 == c)
      else l.filter (fun x => x.2 == c) := by
  induction l with
  | nil =>
    by_cases h : a.2 = c
    · simp [List.orderedInsert, List.filter, h]
    · have hb : (a.2 == c) = false := by simp [h]
      simp [List.orderedInsert, List.filter, h, hb]
  | cons b rest ih =>
    rw [List.orderedInsert]
    by_cases hr : b.2 ≤ a.2
    · rw [if_pos hr]
      by_cases hac : a.2 = c <;> simp [List.filter_cons, hac]
    · rw [if_neg hr]
      have hb : a.2 < b.2 := not_le.mp hr
      rw [List.filter_cons, List.filter_cons, ih]
      by_cases hbc : (b.2 == c) = true
      · have hbceq : b.2 = c := by simpa using hbc
        have hac : a.2 ≠ c := fun he => absurd (he.trans hbceq.symm ▸ hb) (by omega)
        simp [hbc, hac]
      · by_cases hac : a.2 = c <;> simp [hbc, hac]

lemma filter_sortDescCount (c : ℕ) (l : List (String × ℕ)) :
    (sortDescCount l).filter (fun x => x.2 == c) = l.filter (fun x => x.2 == c) := by
  unfold sortDescCount
  induction l with
  | nil => rfl
  | cons a rest ih =>
    rw [List.insertionSort, filter_orderedInsert, List.filter_cons]
    by_cases h : a.2 = c
    · rw [if_pos h, ih, if_pos (by simp [h])]
    · rw [if_neg h, ih, if_neg (by simp [h])]

lemma sortDescCount_perm (l : List (String × ℕ)) : (sortDescCount l).Perm l :=
  List.perm_insertionSort _ l

lemma sortDescCount_sorted (l : List (String × ℕ)) :
    List.Sorted (fun a b => b.2 ≤ a.2) (sortDescCount l) :=
  List.sorted_insertionSort _ l

lemma kept_ge_dropped (l : List (String × ℕ)) (g g' : String × ℕ)
    (hg : g ∈ (sortDescCount l).take 10) (hg' : g' ∈ (sortDescCount l).drop 10) :
    g'.2 ≤ g.2 := by
  have hs := sortDescCount_sorted l
  rw [← List.take_append_drop 10 (sortDescCount l)] at hs
  exact (List.pairwise_append.mp hs).2.2 g hg g' hg'

lemma ranksFrom_lookup_bounds (l : List (String × ℕ)) (i : ℕ) (c : String) (rk : ℕ)
    (h : (ranksFrom i l).lookup c = some rk) : i ≤ rk ∧ rk < i + l.length := by
  induction l generalizing i with
  | nil => cases h
  | cons cn rest ih =>
    simp only [ranksFrom, List.lookup] at h
    by_cases hc : (c == cn.1) = true
    · rw [hc] at h
      have : rk = i := by simpa using h.symm
      subst this
      simp
    · rw [Bool.not_eq_true] at hc
      rw [hc] at h
      have := ih (i + 1) h
      constructor
      · omega
      · simpa [Nat.add_comm, Nat.add_assoc, Nat.add_left_comm] using by omega

lemma topRankOf_bounds (features : List Feature) (annee code : String) (rk : ℕ)
    (h : topRankOf features annee code = some rk) : 1 ≤ rk ∧ rk ≤ 10 := by
  unfold topRankOf at h
  have hb := ranksFrom_lookup_bounds _ _ _ _ h
  have hlen : (keptOf features annee).length ≤ 10 := by
    unfold keptOf
    exact List.length_take_le _ _
  omega

lemma lookup_setOrAppend_self (p : Props) (k : String) (v : PyVal) :
    (Props.setOrAppend p k v).lookup k = some v := by
  induction p with
  | nil => simp [Props.setOrAppend, List.lookup]
  | cons kv rest ih =>
    by_cases h : kv.1 == k
    · simp [Props.setOrAppend, h, List.lookup]
    · have hb : (k == kv.1) = false := by
        have : kv.1 ≠ k := by simpa using h
        simp [Ne.symm this]
      simp only [Props.setOrAppend, h, Bool.false_eq_true, if_false, List.lookup, hb]
      exact ih

lemma lookup_setOrAppend_ne (p : Props) (k k' : String) (v : PyVal) (h : k' ≠ k) :
    (Props.setOrAppend p k' v).lookup k = p.lookup k := by
  induction p with
  | nil =>
    have hb : (k == k') = false := by simp [Ne.symm h]
    simp [Props.setOrAppend, List.lookup, hb]
  | cons kv rest ih =>
    by_cases hh : kv.1 == k'
    · have hk : kv.1 = k' := by simpa using hh
      have hb : (k == k') = false := by simp [Ne.symm h]
      have hb2 : (k == kv.1) = false := by simp [hk, Ne.symm h]
      simp [Props.setOrAppend, hh, List.lookup, hb, hb2, hk]
    · simp only [Props.setOrAppend, hh, Bool.false_eq_true, if_false, List.lookup]
      cases hkk : k == kv.1
      · exact ih
      · rfl

lemma lookup_append_props (l1 l2 : Props) (k : String) :
    (l1 ++ l2).lookup k =
      (match l1.lookup k with
        | some v => some v
        | none => l2.lookup k) := by
  induction l1 with
  | nil => simp [List.lookup]
  | cons kv rest ih =>
    simp only [List.cons_append, List.lookup]
    cases hkk : k == kv.1
    · exact ih
    · rfl

lemma lookup_filterMap_order_not_mem (p : Props) (order : List String) (k : String)
    (h : k ∉ order) :
    (order.filterMap (fun k' => (p.lookup k').map (fun v => (k', v)))).lookup k = none := by
  induction order with
  | nil => rfl
  | cons k0 rest ih =>
    have hne : k ≠ k0 := fun he => h (by simp [he])
    have h' : k ∉ rest := fun hm => h (by simp [hm])
    rw [List.filterMap_cons]
    cases hv : p.lookup k0
    · simpa using ih h'
    · have hb : (k == k0) = false := by simp [hne]
      simpa [List.lookup, hb] using ih h'

lemma lookup_filterMap_order (p : Props) (order : List String) (k : String)
    (hnodup : order.Nodup) (hmem : k ∈ order) :
    (order.filterMap (fun k' => (p.lookup k').map (fun v => (k', v)))).lookup k =
      p.lookup k := by
  induction order with
  | nil => cases hmem
  | cons k0 rest ih =>
    rw [List.filterMap_cons]
    by_cases hk : k = k0
    · subst hk
      cases hv : p.lookup k
      · simpa using lookup_filterMap_order_not_mem p rest k (List.nodup_cons.mp hnodup).1
      · simp [List.lookup]
    · have hmem' : k ∈ rest := by
        rcases List.mem_cons.mp hmem with h' | h'
        · exact absurd h' hk
        · exact h'
      cases hv : p.lookup k0
      · simpa using ih (List.nodup_cons.mp hnodup).2 hmem'
      · have hb : (k == k0) = false := by simp [hk]
        simpa [List.lookup, hb] using ih (List.nodup_cons.mp hnodup).2 hmem'

lemma lookup_isSome_of_mem (p : Props) (k : String) (h : k ∈ p.map Prod.fst) :
    (p.lookup k).isSome = true := by
  induction p with
  | nil => cases h
  | cons kv rest ih =>
    rw [List.map_cons] at h
    by_cases hk : k = kv.1
    · have hb : (k == kv.1) = true := by simp [hk]
      simp [List.lookup, hb]
    · have hb : (k == kv.1) = false := by simp [hk]
      simp only [List.lookup, hb]
      rcases List.mem_cons.mp h with h' | h'
      · exact absurd h' hk
      · exact ih h'

lemma lookup_filter_subset (p : Props) (q : String × PyVal → Bool) (k : String)
    (h : p.lookup k = none) : (p.filter q).lookup k = none := by
  apply lookup_eq_none_of_not_mem
  intro hmem
  obtain ⟨kv, hkv, hfst⟩ := List.mem_map.mp hmem
  have hp : kv ∈ p := (List.mem_filter.mp hkv).1
  have hmemp : k ∈ p.map Prod.fst := List.mem_map.mpr ⟨kv, hp, hfst⟩
  have := lookup_isSome_of_mem p k hmemp
  rw [h] at this
  cases this

lemma lookup_reorderProps (p : Props) (order : List String) (k : String)
    (hnodup : order.Nodup) (hmem : k ∈ order) :
    (reorderProps p order).lookup k = p.lookup k := by
  unfold reorderProps
  rw [lookup_append_props, lookup_filterMap_order p order k hnodup hmem]
  cases hv : p.lookup k
  · exact lookup_filter_subset p _ k hv
  · rfl

lemma bumpCount_map_fst (l : List ((String × String) × ℕ)) (k : String × String) :
    (bumpCount l k).map Prod.fst =
      (if k ∈ l.map Prod.fst then l.map Prod.fst else l.map Prod.fst ++ [k]) := by
  induction l with
  | nil => simp [bumpCount]
  | cons kn rest ih =>
    by_cases h : kn.1 = k
    · simp [bumpCount, h]
    · by_cases hm : k ∈ rest.map Prod.fst
      · simp [bumpCount, h, hm, ih, Ne.symm h]
      · simp [bumpCount, h, hm, ih, Ne.symm h]

/-- **C4 counterexample.** Eleven parameter codes in year "2020", one
measurement each (an eleven-way count tie), fed in descending code order:
the view keeps codes "11"–"02" and drops "01". An ascending-parameter-code
tie-break would keep "01" and drop "11", so ties are not broken by
ascending code but by first-appearance order (Python's stable sort). -/
theorem C4_counterexample_tie_break_not_ascending :
    (top10View
        [⟨none, [("code_parametre", .vs "11"), ("annee", .vs "2020")]⟩,
         ⟨none, [("code_parametre", .vs "10"), ("annee", .vs "2020")]⟩,
         ⟨none, [("code_parametre", .vs "09"), ("annee", .vs "2020")]⟩,
         ⟨none, [("code_parametre", .vs "08"), ("annee", .vs "2020")]⟩,
         ⟨none, [("code_parametre", .vs "07"), ("annee", .vs "2020")]⟩,
         ⟨none, [("code_parametre", .vs "06"), ("annee", .vs "2020")]⟩,
         ⟨none, [("code_parametre", .vs "05"), ("annee", .vs "2020")]⟩,
         ⟨none, [("code_parametre", .vs "04"), ("annee", .vs "2020")]⟩,
         ⟨none, [("code_parametre", .vs "03"), ("annee", .vs "2020")]⟩,
         ⟨none, [("code_parametre", .vs "02"), ("annee", .vs "2020")]⟩,
         ⟨none, [("code_parametre", .vs "01"), ("annee", .vs "2020")]⟩]).map
      (fun f => f.properties.get "code_parametre") =
      [.vs "11", .vs "10", .vs "09", .vs "08", .vs "07", .vs "06", .vs "05", .vs "04",
       .vs "03", .vs "02"] := by
  decide

/-- **C4 (amended).** The ranking view groups by `(year, code)` and counts
features per group (first-encounter order); per year it keeps the 10 groups
with the highest counts, breaking count ties by the order in which each
group first appears in the feature list (Python's stable sort), not by
ascending parameter code; kept features carry the boolean flag and a rank
in 1–10; features with an untruthy year or code, or in an unranked group,
produce no output feature. -/
theorem C4_top10_ranking_behaviour :
    (∀ (features : List Feature) (k : String × String),
      (countsOf features).lookup k =
        (if features.countP (fun f => topKey f == some k) = 0 then none
          else some (features.countP (fun f => topKey f == some k)))) ∧
    (∀ (l : List ((String × String) × ℕ)) (k : String × String),
      (bumpCount l k).map Prod.fst =
        (if k ∈ l.map Prod.fst then l.map Prod.fst else l.map Prod.fst ++ [k])) ∧
    (∀ (counts : List ((String × String) × ℕ)) (annee : String),
      ((byYearOf counts).lookup annee).getD [] =
        counts.filterMap (fun kn => if kn.1.1 = annee then some (kn.1.2, kn.2) else none)) ∧
    (∀ l : List (String × ℕ), (sortDescCount l).Perm l) ∧
    (∀ l : List (String × ℕ), List.Sorted (fun a b => b.2 ≤ a.2) (sortDescCount l)) ∧
    (∀ (l : List (String × ℕ)) (c : ℕ),
      (sortDescCount l).filter (fun x => x.2 == c) = l.filter (fun x => x.2 == c)) ∧
    (∀ (features : List Feature) (annee : String) (g g' : String × ℕ),
      g ∈ keptOf features annee →
      g' ∈ (sortDescCount (((byYearOf (countsOf features)).lookup annee).getD [])).drop 10 →
      g'.2 ≤ g.2) ∧
    (∀ (features : List Feature) (annee code : String) (rk : ℕ),
      topRankOf features annee code = some rk → 1 ≤ rk ∧ rk ≤ 10) ∧
    (∀ features : List Feature,
      top10View features = features.filterMap (annotateTop10 features)) ∧
    (∀ (features : List Feature) (f : Feature),
      (pyTruthy (f.properties.get "code_parametre") = false ∨
        pyTruthy (f.properties.get "annee") = false ∨
        topRankOf features (pyStr (f.properties.get "annee"))
          (pyStr (f.properties.get "code_parametre")) = none) →
      annotateTop10 features f = none) ∧
    (∀ (features : List Feature) (f' : Feature), f' ∈ top10View features →
      ∃ rk : ℕ, 1 ≤ rk ∧ rk ≤ 10 ∧ f'.properties.get "top10_rang" = .vn rk ∧
        f'.properties.get "top10_ppp_annee" = .vb true) := by
  refine ⟨fun features k => countsFold_lookup_none features [] k rfl, bumpCount_map_fst,
    byYearOf_lookup, sortDescCount_perm, sortDescCount_sorted,
    fun l c => filter_sortDescCount c l,
    fun features annee g g' hg hg' => kept_ge_dropped _ g g' hg hg',
    topRankOf_bounds, fun features => rfl, ?_, ?_⟩
  · intro features f hdisj
    unfold annotateTop10
    by_cases hc : (!(pyTruthy (f.properties.get "code_parametre")) ||
        !(pyTruthy (f.properties.get "annee"))) = true
    · rw [if_pos hc]
    · rw [Bool.or_eq_true, Bool.not_eq_true', Bool.not_eq_true'] at hc
      push_neg at hc
      rcases hdisj with h | h | h
      · exact absurd h hc.1
      · exact absurd h hc.2
      · rw [if_neg (by
          rw [Bool.or_eq_true, Bool.not_eq_true', Bool.not_eq_true']
          push_neg
          exact hc)]
        rw [h]
  · intro features f' hf'
    obtain ⟨f, -, hann⟩ := List.mem_filterMap.mp hf'
    unfold annotateTop10 at hann
    by_cases hc : (!(pyTruthy (f.properties.get "code_parametre")) ||
        !(pyTruthy (f.properties.get "annee"))) = true
    · rw [if_pos hc] at hann
      cases hann
    · rw [if_neg hc] at hann
      match hrk : topRankOf features (pyStr (f.properties.get "annee"))
          (pyStr (f.properties.get "code_parametre")) with
      | none => rw [hrk] at hann; cases hann
      | some rk =>
        rw [hrk] at hann
        dsimp only at hann
        have hfeq := Option.some.inj hann
        have hprops : f'.properties =
            reorderProps
              ((f.properties.setOrAppend "top10_ppp_annee" (.vb true)).setOrAppend
                "top10_rang" (.vn rk)) COLONNES_TOP10_ORDER := by
          rw [← hfeq]
        refine ⟨rk, (topRankOf_bounds _ _ _ _ hrk).1, (topRankOf_bounds _ _ _ _ hrk).2,
          ?_, ?_⟩
        · unfold Props.get
          rw [hprops, lookup_reorderProps _ _ _ (by decide) (by decide),
            lookup_setOrAppend_self]
        · unfold Props.get
          rw [hprops, lookup_reorderProps _ _ _ (by decide) (by decide),
            lookup_setOrAppend_ne _ _ _ _ (by decide), lookup_setOrAppend_self]

/-- **C4 witness.** A feature with no code/year properties is annotated to
nothing, by the amended theorem applied at an empty feature list. -/
theorem C4_top10_ranking_behaviour_witness :
    annotateTop10 [] { geometry := none, properties := [] } = none :=
  C4_top10_ranking_behaviour.2.2.2.2.2.2.2.2.2.1 []
    { geometry := none, properties := [] } (Or.inl (by decide))

end PhytoDB
